import Mathlib

/-!
Shallow embedding of `src/backend/main.py` (FastAPI PDF-processing backend)
and proofs about its request handlers, prompt builders, response parser,
document store and id assignment.

Conventions of the embedding:
* Python strings are Lean `String`s (lists of unicode scalar chars).
* Machine-level effects are made explicit: the wall clock is passed in as a
  microsecond count, the network call to the LLM endpoint is an oracle
  function from prompt to `Except`-result, and PyPDF2 text extraction is the
  field `extract` of the uploaded-file value.
* `dict`-shaped dynamic values decoded from JSON are the inductive `Json`;
  Python attribute/subscript operations on them are modelled by total
  functions returning `Except PyErr _`, mirroring the exceptions CPython
  raises (`IndexError`, `KeyError`, `TypeError`, ...).
* FastAPI's `HTTPException` is `HTTPError`; a `try/except Exception` block
  is modelled by running the body in `Except PyErr _` and converting any
  error per the handler's `except` clause.
-/

namespace AdaptiveEd

/-- The `{` character, kept out of string/char literals. -/
def lbrace : Char := Char.ofNat 123

/-- The `}` character, kept out of string/char literals. -/
def rbrace : Char := Char.ofNat 125

/-- ASCII whitespace recognised by Python's `str.strip()` (unicode
whitespace beyond ASCII is out of scope for this development). -/
def pyIsSpace (c : Char) : Bool :=
  c = ' ' || c = '\t' || c = '\n' || c = '\r' || c = '\x0b' || c = '\x0c'

/-- `str.strip()` on the character list. -/
def pyStripList (cs : List Char) : List Char :=
  ((cs.dropWhile pyIsSpace).reverse.dropWhile pyIsSpace).reverse

/-- Python `str.strip()`. -/
def pyStrip (s : String) : String := ⟨pyStripList s.data⟩

/-- Python `str.lower()` (ASCII case folding; full unicode case folding is
out of scope). -/
def pyLower (s : String) : String := ⟨s.data.map Char.toLower⟩

/-- Python `str.endswith(t)`. -/
def pyEndsWith (s t : String) : Bool := t.data.isSuffixOf s.data

/-- Python `str.find(c)`: index of the first occurrence, `none` for `-1`. -/
def pyFind (cs : List Char) (c : Char) : Option Nat :=
  match cs with
  | [] => none
  | x :: xs =>
    if x = c then some 0
    else match pyFind xs c with
      | some i => some (i + 1)
      | none => none

/-- Python `str.rfind(c)`: index of the last occurrence, `none` for `-1`. -/
def pyRFind (cs : List Char) (c : Char) : Option Nat :=
  match pyFind cs.reverse c with
  | some i => some (cs.length - 1 - i)
  | none => none

/-- Python slice `s[a:b]` for `0 ≤ a`, `b ≤ len s` (the only shapes the
source uses); `b ≤ a` yields the empty string, as in Python. -/
def pySlice (cs : List Char) (a b : Nat) : List Char :=
  (cs.drop a).take (b - a)

/-- JSON values as decoded by Python's `json.loads`: integer-valued number
literals become `int` (`numI`), all other number literals become `float`,
kept here as their source literal (`numF`), sidestepping binary floating
point, which no claim depends on. Objects keep insertion order with
last-wins duplicate keys, like a Python `dict`. -/
inductive Json where
  | null : Json
  | bool (b : Bool) : Json
  | numI (n : Int) : Json
  | numF (lit : String) : Json
  | str (s : String) : Json
  | arr (items : List Json) : Json
  | obj (fields : List (String × Json)) : Json

/-- JSON-document whitespace accepted by Python's `json` scanner. -/
def jsonWs (c : Char) : Bool :=
  c = ' ' || c = '\t' || c = '\n' || c = '\r'

/-- Drop leading JSON whitespace. -/
def skipWs : List Char → List Char
  | [] => []
  | c :: cs => if jsonWs c then skipWs cs else c :: cs

/-- Hex digit value. -/
def hexVal (c : Char) : Option Nat :=
  if '0' ≤ c ∧ c ≤ '9' then some (c.toNat - '0'.toNat)
  else if 'a' ≤ c ∧ c ≤ 'f' then some (c.toNat - 'a'.toNat + 10)
  else if 'A' ≤ c ∧ c ≤ 'F' then some (c.toNat - 'A'.toNat + 10)
  else none

/-- Four hex digits to a code unit. -/
def hex4 (a b c d : Char) : Option Nat := do
  let x ← hexVal a
  let y ← hexVal b
  let z ← hexVal c
  let w ← hexVal d
  pure (((x * 16 + y) * 16 + z) * 16 + w)

def isHighSurrogate (n : Nat) : Bool := 0xD800 ≤ n ∧ n < 0xDC00

def isLowSurrogate (n : Nat) : Bool := 0xDC00 ≤ n ∧ n < 0xE000

/-- Body of a JSON string after the opening quote: returns the decoded
characters and the remainder after the closing quote.  Escapes follow the
`json` module; surrogate-pair escapes are combined.  A lone surrogate
escape, which CPython keeps as a lone surrogate code unit, is mapped to
U+FFFD because a Lean `Char` cannot hold it (no claim depends on this). -/
def parseStrBody (fuel : Nat) (cs : List Char) : Option (List Char × List Char) :=
  match fuel with
  | 0 => none
  | fuel + 1 =>
    match cs with
    | [] => none
    | '"' :: rest => some ([], rest)
    | '\\' :: esc =>
      match esc with
      | 'u' :: h1 :: h2 :: h3 :: h4 :: rest => do
        let n ← hex4 h1 h2 h3 h4
        if isHighSurrogate n then
          match rest with
          | '\\' :: 'u' :: g1 :: g2 :: g3 :: g4 :: rest2 => do
            let m ← hex4 g1 g2 g3 g4
            if isLowSurrogate m then
              let code := 0x10000 + (n - 0xD800) * 0x400 + (m - 0xDC00)
              let (tail, r) ← parseStrBody fuel rest2
              pure (Char.ofNat code :: tail, r)
            else do
              let (tail, r) ← parseStrBody fuel rest2
              pure ('�' :: Char.ofNat m :: tail, r)
          | _ => do
            let (tail, r) ← parseStrBody fuel rest
            pure ('�' :: tail, r)
        else if isLowSurrogate n then do
          let (tail, r) ← parseStrBody fuel rest
          pure ('�' :: tail, r)
        else do
          let (tail, r) ← parseStrBody fuel rest
          pure (Char.ofNat n :: tail, r)
      | '"' :: rest => do
        let (tail, r) ← parseStrBody fuel rest
        pure ('"' :: tail, r)
      | '\\' :: rest => do
        let (tail, r) ← parseStrBody fuel rest
        pure ('\\' :: tail, r)
      | '/' :: rest => do
        let (tail, r) ← parseStrBody fuel rest
        pure ('/' :: tail, r)
      | 'b' :: rest => do
        let (tail, r) ← parseStrBody fuel rest
        pure ('\x08' :: tail, r)
      | 'f' :: rest => do
        let (tail, r) ← parseStrBody fuel rest
        pure ('\x0c' :: tail, r)
      | 'n' :: rest => do
        let (tail, r) ← parseStrBody fuel rest
        pure ('\n' :: tail, r)
      | 'r' :: rest => do
        let (tail, r) ← parseStrBody fuel rest
        pure ('\r' :: tail, r)
      | 't' :: rest => do
        let (tail, r) ← parseStrBody fuel rest
        pure ('\t' :: tail, r)
      | _ => none
    | c :: rest =>
      if c.toNat < 0x20 then none
      else do
        let (tail, r) ← parseStrBody fuel rest
        pure (c :: tail, r)

/-- Take a maximal run of decimal digits. -/
def takeDigits : List Char → List Char × List Char
  | [] => ([], [])
  | c :: cs =>
    if c.isDigit then
      let (d, r) := takeDigits cs
      (c :: d, r)
    else ([], c :: cs)

/-- Digit characters to a natural number. -/
def digitsToNat (ds : List Char) : Nat :=
  ds.foldl (fun acc c => acc * 10 + (c.toNat - '0'.toNat)) 0

/-- Scan a JSON number token per RFC 8259 (the grammar the `json` module
uses): `-? (0 | [1-9][0-9]*) (. [0-9]+)? ([eE][+-]?[0-9]+)?`.  Integer
literals become Python `int`s; any literal with a fraction or exponent
becomes a `float`, kept as its literal text. -/
def parseNum (cs : List Char) : Option (Json × List Char) :=
  let (neg, cs1) :=
    match cs with
    | '-' :: r => (true, r)
    | _ => (false, cs)
  let intPart : Option (List Char × List Char) :=
    match cs1 with
    | '0' :: r => some (['0'], r)
    | c :: _ =>
      if c.isDigit then
        let (d, r) := takeDigits cs1
        some (d, r)
      else none
    | [] => none
  match intPart with
  | none => none
  | some (ip, r1) =>
    let (fracPart, r2) :=
      match r1 with
      | '.' :: c :: rest =>
        if c.isDigit then
          let (d, r) := takeDigits (c :: rest)
          (some d, r)
        else (none, r1)
      | _ => (none, r1)
    let (expPart, r3) :=
      match r2 with
      | 'e' :: '+' :: c :: rest =>
        if c.isDigit then
          let (d, r) := takeDigits (c :: rest)
          (some (('e' : Char) :: '+' :: d), r)
        else (none, r2)
      | 'e' :: '-' :: c :: rest =>
        if c.isDigit then
          let (d, r) := takeDigits (c :: rest)
          (some (('e' : Char) :: '-' :: d), r)
        else (none, r2)
      | 'e' :: c :: rest =>
        if c.isDigit then
          let (d, r) := takeDigits (c :: rest)
          (some (('e' : Char) :: d), r)
        else (none, r2)
      | 'E' :: '+' :: c :: rest =>
        if c.isDigit then
          let (d, r) := takeDigits (c :: rest)
          (some (('E' : Char) :: '+' :: d), r)
        else (none, r2)
      | 'E' :: '-' :: c :: rest =>
        if c.isDigit then
          let (d, r) := takeDigits (c :: rest)
          (some (('E' : Char) :: '-' :: d), r)
        else (none, r2)
      | 'E' :: c :: rest =>
        if c.isDigit then
          let (d, r) := takeDigits (c :: rest)
          (some (('E' : Char) :: d), r)
        else (none, r2)
      | _ => (none, r2)
    match fracPart, expPart with
    | none, none =>
      let v : Int := Int.ofNat (digitsToNat ip)
      some (.numI (if neg then -v else v), r3)
    | f, e =>
      let lit : List Char :=
        (if neg then ['-'] else []) ++ ip ++
        (match f with
         | some d => '.' :: d
         | none => []) ++
        (match e with
         | some d => d
         | none => [])
      some (.numF ⟨lit⟩, r3)

/-- Python `dict` insertion: an existing key keeps its position and takes
the new value; a new key is appended. -/
def upsert (fields : List (String × Json)) (k : String) (v : Json) :
    List (String × Json) :=
  match fields with
  | [] => [(k, v)]
  | (k2, v2) :: rest =>
    if k2 = k then (k2, v) :: rest else (k2, v2) :: upsert rest k v

mutual

/-- Parse one JSON value starting at `cs` (no leading whitespace).  The
fuel only bounds nesting depth, mirroring CPython's recursion limit; the
top-level entry point supplies enough fuel for any input it is given. -/
def parseValue (fuel : Nat) (cs : List Char) : Option (Json × List Char) :=
  match fuel with
  | 0 => none
  | f + 1 =>
    match cs with
    | [] => none
    | c :: rest =>
      if c = lbrace then parseObj f (skipWs rest)
      else if c = '[' then parseArr f (skipWs rest)
      else if c = '"' then
        match parseStrBody (rest.length + 1) rest with
        | some (sChars, r) => some (.str ⟨sChars⟩, r)
        | none => none
      else if c = 't' then
        match rest with
        | 'r' :: 'u' :: 'e' :: r => some (.bool true, r)
        | _ => none
      else if c = 'f' then
        match rest with
        | 'a' :: 'l' :: 's' :: 'e' :: r => some (.bool false, r)
        | _ => none
      else if c = 'n' then
        match rest with
        | 'u' :: 'l' :: 'l' :: r => some (.null, r)
        | _ => none
      else if c = 'N' then
        match rest with
        | 'a' :: 'N' :: r => some (.numF "NaN", r)
        | _ => none
      else if c = 'I' then
        match rest with
        | 'n' :: 'f' :: 'i' :: 'n' :: 'i' :: 't' :: 'y' :: r =>
          some (.numF "Infinity", r)
        | _ => none
      else if c = '-' then
        match rest with
        | 'I' :: 'n' :: 'f' :: 'i' :: 'n' :: 'i' :: 't' :: 'y' :: r =>
          some (.numF "-Infinity", r)
        | _ => parseNum (c :: rest)
      else parseNum (c :: rest)

/-- Object body, positioned after the opening brace and whitespace. -/
def parseObj (fuel : Nat) (cs : List Char) : Option (Json × List Char) :=
  match fuel with
  | 0 => none
  | f + 1 =>
    match cs with
    | c :: rest =>
      if c = rbrace then some (.obj [], rest) else parseMembers f cs []
    | [] => none

/-- One or more `"key": value` members separated by commas. -/
def parseMembers (fuel : Nat) (cs : List Char) (acc : List (String × Json)) :
    Option (Json × List Char) :=
  match fuel with
  | 0 => none
  | f + 1 =>
    match cs with
    | '"' :: rest =>
      match parseStrBody (rest.length + 1) rest with
      | some (kChars, r1) =>
        match skipWs r1 with
        | ':' :: r2 =>
          match parseValue f (skipWs r2) with
          | some (v, r3) =>
            let acc2 := upsert acc ⟨kChars⟩ v
            match skipWs r3 with
            | ',' :: r4 => parseMembers f (skipWs r4) acc2
            | c :: r4 =>
              if c = rbrace then some (.obj acc2, r4) else none
            | [] => none
          | none => none
        | _ => none
      | none => none
    | _ => none

/-- Array body, positioned after the opening bracket and whitespace. -/
def parseArr (fuel : Nat) (cs : List Char) : Option (Json × List Char) :=
  match fuel with
  | 0 => none
  | f + 1 =>
    match cs with
    | ']' :: rest => some (.arr [], rest)
    | _ => parseItems f cs []

/-- One or more array items separated by commas. -/
def parseItems (fuel : Nat) (cs : List Char) (acc : List Json) :
    Option (Json × List Char) :=
  match fuel with
  | 0 => none
  | f + 1 =>
    match parseValue f cs with
    | some (v, r1) =>
      match skipWs r1 with
      | ',' :: r2 => parseItems f (skipWs r2) (acc ++ [v])
      | ']' :: r2 => some (.arr (acc ++ [v]), r2)
      | _ => none
    | none => none

end

/-- Model of Python `json.loads`: parse one JSON document, allowing
surrounding whitespace and rejecting trailing data.  The fuel bound
`4 * length + 16` exceeds the maximal number of recursive entries needed
for any input of that length. -/
def Json.loads (s : String) : Option Json :=
  let cs := s.data
  match parseValue (4 * cs.length + 16) (skipWs cs) with
  | some (j, rest) => if (skipWs rest).isEmpty then some j else none
  | none => none

/-- `fastapi.HTTPException`: status code and free-text detail. -/
structure HTTPError where
  status_code : Nat
  detail : String

/-- Exceptions that can cross a `try: ... except Exception` boundary in the
handlers: an `HTTPException`, an `IndexError`/`KeyError` from subscripts, or
any other exception carrying a message.  The exact message of the non-HTTP
kinds is CPython's; claims only rely on messages of `HTTPException`s. -/
inductive PyErr where
  | http (e : HTTPError) : PyErr
  | indexError (msg : String) : PyErr
  | keyError (msg : String) : PyErr
  | typeError (msg : String) : PyErr
  | validationError (msg : String) : PyErr
  | attributeError (msg : String) : PyErr

/-- Python `str(e)`: `starlette.HTTPException` renders `"{code}: {detail}"`;
other exceptions render their message. -/
def PyErr.str : PyErr → String
  | .http e => toString e.status_code ++ ": " ++ e.detail
  | .indexError m => m
  | .keyError m => m
  | .typeError m => m
  | .validationError m => m
  | .attributeError m => m

/-- Run a step that raises `HTTPException` inside a `try` block. -/
def liftHTTP : Except HTTPError α → Except PyErr α
  | .ok a => .ok a
  | .error e => .error (.http e)

/-- Python truthiness of a decoded JSON value: `None`, `False`, `0`, `0.0`,
`""`, `[]` and the empty dict are falsy. -/
def Json.truthy : Json → Bool
  | .null => false
  | .bool b => b
  | .numI n => n ≠ 0
  | .numF lit =>
    -- a float is falsy iff its value is 0.0: the literal has at least one
    -- digit and all its mantissa digits are '0' (`NaN`/`Infinity` have no
    -- digits and are truthy)
    ¬ (lit.data.any Char.isDigit ∧
       ((lit.data.takeWhile (fun c => c ≠ 'e' ∧ c ≠ 'E')).all
         (fun c => ¬ c.isDigit ∨ c = '0')))
  | .str s => s ≠ ""
  | .arr items => ¬ items.isEmpty
  | .obj fields => ¬ fields.isEmpty

/-- Python `value.get(key, default)`: defined for `dict`s, raises
`AttributeError` otherwise. -/
def pyGet (v : Json) (k : String) (default : Json) : Except PyErr Json :=
  match v with
  | .obj fields => .ok ((fields.lookup k).getD default)
  | _ => .error (.attributeError "object has no attribute get")

/-- Python iteration (as consumed by `enumerate`): lists yield their items,
strings their characters, dicts their keys; other values raise
`TypeError`. -/
def pyIterList (v : Json) : Except PyErr (List Json) :=
  match v with
  | .arr items => .ok items
  | .str s => .ok (s.data.map fun c => .str ⟨[c]⟩)
  | .obj fields => .ok (fields.map fun kv => .str kv.1)
  | _ => .error (.typeError "object is not iterable")

/-- A value usable as a sequence index: `int`s, and `bool`s as `0`/`1`. -/
def pyAsIndex : Json → Option Int
  | .numI n => some n
  | .bool b => some (if b then 1 else 0)
  | _ => none

/-- Python sequence indexing with negative-index wrap-around:
`xs[i]` is valid iff `-len ≤ i < len`. -/
def pyIndex (xs : List α) (i : Int) : Option α :=
  if 0 ≤ i then xs.get? i.toNat
  else if 0 ≤ i + xs.length then xs.get? (i + xs.length).toNat
  else none

/-- Python subscription `container[index]` on decoded JSON values. -/
def pySubscript (container : Json) (index : Json) : Except PyErr Json :=
  match container with
  | .arr items =>
    match pyAsIndex index with
    | some i =>
      match pyIndex items i with
      | some v => .ok v
      | none => .error (.indexError "list index out of range")
    | none => .error (.typeError "list indices must be integers or slices")
  | .str s =>
    match pyAsIndex index with
    | some i =>
      match pyIndex s.data i with
      | some c => .ok (.str ⟨[c]⟩)
      | none => .error (.indexError "string index out of range")
    | none => .error (.typeError "string indices must be integers")
  | .obj fields =>
    match index with
    | .str k =>
      match fields.lookup k with
      | some v => .ok v
      | none => .error (.keyError k)
    | _ => .error (.keyError "non-string key")
  | _ => .error (.typeError "object is not subscriptable")

/-! ## Configuration (main.py lines 47-50) -/

/-- The hardcoded fallback passed as the second argument of `os.getenv`. -/
def DEFAULT_OPENROUTER_API_KEY : String :=
  "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"

/-- `os.getenv("OPENROUTER_API_KEY", default)`: the environment value when
the variable is set (even to the empty string), the default otherwise. -/
def resolveApiKey (env : Option String) : String :=
  env.getD DEFAULT_OPENROUTER_API_KEY

def MODEL_NAME : String := "deepseek/deepseek-r1-distill-llama-70b:free"

/-! ## LLM gateway (`call_openrouter_api`) -/

/-- `call_openrouter_api`: raises `HTTPException(500)` when the resolved key
is falsy (the empty string); otherwise performs the network call, modelled
by the oracle `net` from prompt to completion text or `HTTPException`
(covering both the `httpx.HTTPError` and `KeyError` wrap-ups of the
source). -/
def call_openrouter_api (apiKey : String)
    (net : String → Except HTTPError String) (prompt : String) :
    Except HTTPError String :=
  if apiKey = "" then
    .error ⟨500, "OpenRouter API key not configured"⟩
  else net prompt

/-! ## Prompt builders (main.py lines 175-243) -/

/-- Text of the summary template before the interpolated `{text}`. -/
def sumPromptPre : String :=
  "\n    Please analyze the following text and provide a comprehensive summary along with key points.\n    \n    Text to summarize:\n    "

/-- Text of the summary template after the interpolated `{text}`. -/
def sumPromptPost : String :=
  "\n    \n    Please respond in the following JSON format:\n    \x7b\n        \"summary\": \"A comprehensive summary of the text (2-3 paragraphs)\",\n        \"key_points\": [\"Key point 1\", \"Key point 2\", \"Key point 3\", \"Key point 4\", \"Key point 5\"]\n    \x7d\n    \n    Ensure the response is valid JSON.\n    "

/-- `create_summary_prompt`. -/
def create_summary_prompt (text : String) : String :=
  sumPromptPre ++ text ++ sumPromptPost

/-- Text of the quiz template before the interpolated `{text}`. -/
def quizPromptPre : String :=
  "\n    Based on the following text, create 5 multiple-choice questions to test understanding.\n    \n    Text:\n    "

/-- Text of the quiz template after the interpolated `{text}`. -/
def quizPromptPost : String :=
  "\n    \n    Please respond in the following JSON format:\n    \x7b\n        \"questions\": [\n            \x7b\n                \"question\": \"Question text here?\",\n                \"options\": [\"Option A\", \"Option B\", \"Option C\", \"Option D\"],\n                \"correct_answer\": 0,\n                \"explanation\": \"Brief explanation of why this is correct\"\n            \x7d\n        ]\n    \x7d\n    \n    Make sure:\n    - Each question has exactly 4 options\n    - correct_answer is the index (0-3) of the correct option\n    - Questions test different aspects of the content\n    - Ensure the response is valid JSON\n    "

/-- `create_quiz_prompt`. -/
def create_quiz_prompt (text : String) : String :=
  quizPromptPre ++ text ++ quizPromptPost

/-- Text of the flashcards template before the interpolated `{text}`. -/
def fcPromptPre : String :=
  "\n    Based on the following text, create 8 flashcards for studying key concepts.\n    \n    Text:\n    "

/-- Text of the flashcards template after the interpolated `{text}`. -/
def fcPromptPost : String :=
  "\n    \n    Please respond in the following JSON format:\n    \x7b\n        \"flashcards\": [\n            \x7b\n                \"front\": \"Question or concept\",\n                \"back\": \"Answer or explanation\"\n            \x7d\n        ]\n    \x7d\n    \n    Make sure:\n    - Each flashcard tests an important concept\n    - Front side is concise (question/term)\n    - Back side provides clear explanation\n    - Cover different topics from the text\n    - Ensure the response is valid JSON\n    "

/-- `create_flashcards_prompt`. -/
def create_flashcards_prompt (text : String) : String :=
  fcPromptPre ++ text ++ fcPromptPost

/-! ## Response parser (`parse_json_response`, main.py lines 245-258) -/

/-- `parse_json_response`: locate the first brace and the last closing
brace, slice between them, and decode the slice with `json.loads`.  Raises
`HTTPException(500)` when no braces are found or decoding fails.  The
Python detail embeds `str(e)` of the caught exception; for decode failures
the decoder's message text is abstracted to a fixed placeholder, which no
claim inspects. -/
def parse_json_response (response : String) : Except HTTPError Json :=
  match pyFind response.data lbrace, pyRFind response.data rbrace with
  | some start_idx, some last_idx =>
    match Json.loads ⟨pySlice response.data start_idx (last_idx + 1)⟩ with
    | some j => .ok j
    | none => .error ⟨500, "Error parsing API response: invalid JSON"⟩
  | _, _ =>
    .error ⟨500, "Error parsing API response: No JSON found in response"⟩

/-! ## Document store and records (main.py lines 23, 356-368, 410-454) -/

/-- A stored summary, as shaped by `process_document` (lines 410-415).
`content` is whatever JSON value sat under `"summary"` in the model's
reply (a string in the intended case). -/
structure StoredSummary where
  id : String
  document_id : String
  content : Json
  created_at : String

/-- A stored flashcard, as shaped by `process_document` (lines 418-426). -/
structure StoredFlashcard where
  id : String
  document_id : String
  question : Json
  answer : Json
  created_at : String

/-- A stored quiz question, as shaped by `process_document`
(lines 429-438). -/
structure StoredQuizQuestion where
  id : String
  quiz_id : String
  question : Json
  options : Json
  correct_answer : Json
  created_at : String

/-- A stored quiz, as shaped by `process_document` (lines 440-446). -/
structure StoredQuiz where
  id : String
  document_id : String
  title : String
  created_at : String
  questions : List StoredQuizQuestion

/-- A record of `documents_storage`.  The keys written at upload are always
present; the keys written by the process step are `Option`s (absent until
the first process call, matching `dict.get`). -/
structure DocRecord where
  id : String
  title : String
  created_at : String
  user_id : String
  file_path : String
  pdf_text : String
  processed : Bool
  summary : Option StoredSummary
  flashcards : Option (List StoredFlashcard)
  quiz : Option StoredQuiz

/-- The in-memory `documents_storage` mapping. -/
def Store := String → Option DocRecord

/-- The empty store at process start. -/
def emptyStore : Store := fun _ => none

/-- `documents_storage[key] = record`. -/
def Store.set (s : Store) (k : String) (v : DocRecord) : Store :=
  fun k2 => if k2 = k then some v else s k2

/-! ## Uploaded files and text extraction (`extract_text_from_pdf`) -/

/-- An uploaded file: its filename and the outcome of PyPDF2 extraction,
which is outside this repository: `.ok pages` gives each page's
`extract_text()` result for a syntactically valid PDF, `.error msg` the
exception message for invalid bytes. -/
structure UploadedFile where
  filename : String
  extract : Except String (List String)

/-- `extract_text_from_pdf`: concatenate `page + "\n"` over pages and strip;
wrap any extraction exception in `HTTPException(400)`. -/
def extract_text_from_pdf (f : UploadedFile) : Except HTTPError String :=
  match f.extract with
  | .ok pages =>
    .ok (pyStrip (pages.foldl (fun acc p => acc ++ p ++ "\n") ""))
  | .error msg => .error ⟨400, "Error extracting PDF text: " ++ msg⟩

/-! ## Response models validated by pydantic (`/upload-pdf`,
`/generate-*`).  Pydantic's lenient coercions are abstracted to exact type
checks; no claim depends on the accepted shapes. -/

def asStr : Json → Option String
  | .str s => some s
  | _ => none

def asInt : Json → Option Int
  | .numI n => some n
  | _ => none

def asStrList : Json → Option (List String)
  | .arr items => items.mapM asStr
  | _ => none

structure SummaryResponseM where
  summary : String
  key_points : List String

structure QuizQuestionM where
  question : String
  options : List String
  correct_answer : Int
  explanation : String

structure QuizResponseM where
  questions : List QuizQuestionM

structure FlashcardM where
  front : String
  back : String

structure FlashcardsResponseM where
  flashcards : List FlashcardM

structure ProcessingResponseM where
  summary : SummaryResponseM
  quiz : QuizResponseM
  flashcards : FlashcardsResponseM

/-- `SummaryResponse(**data)`. -/
def validateSummary (d : Json) : Except PyErr SummaryResponseM :=
  match d with
  | .obj fields =>
    match (fields.lookup "summary").bind asStr,
          (fields.lookup "key_points").bind asStrList with
    | some s, some kp => .ok ⟨s, kp⟩
    | _, _ => .error (.validationError "validation error for SummaryResponse")
  | _ => .error (.typeError "argument after ** must be a mapping")

def validateQuizQuestion (d : Json) : Option QuizQuestionM :=
  match d with
  | .obj fields =>
    match (fields.lookup "question").bind asStr,
          (fields.lookup "options").bind asStrList,
          (fields.lookup "correct_answer").bind asInt,
          (fields.lookup "explanation").bind asStr with
    | some q, some o, some c, some e => some ⟨q, o, c, e⟩
    | _, _, _, _ => none
  | _ => none

/-- `QuizResponse(**data)`. -/
def validateQuiz (d : Json) : Except PyErr QuizResponseM :=
  match d with
  | .obj fields =>
    match fields.lookup "questions" with
    | some (.arr items) =>
      match items.mapM validateQuizQuestion with
      | some qs => .ok ⟨qs⟩
      | none => .error (.validationError "validation error for QuizResponse")
    | _ => .error (.validationError "validation error for QuizResponse")
  | _ => .error (.typeError "argument after ** must be a mapping")

def validateFlashcard (d : Json) : Option FlashcardM :=
  match d with
  | .obj fields =>
    match (fields.lookup "front").bind asStr,
          (fields.lookup "back").bind asStr with
    | some f, some b => some ⟨f, b⟩
    | _, _ => none
  | _ => none

/-- `FlashcardsResponse(**data)`. -/
def validateFlashcards (d : Json) : Except PyErr FlashcardsResponseM :=
  match d with
  | .obj fields =>
    match fields.lookup "flashcards" with
    | some (.arr items) =>
      match items.mapM validateFlashcard with
      | some fs => .ok ⟨fs⟩
      | none =>
        .error (.validationError "validation error for FlashcardsResponse")
    | _ => .error (.validationError "validation error for FlashcardsResponse")
  | _ => .error (.typeError "argument after ** must be a mapping")

/-! ## `POST /upload-pdf` (`upload_and_process_pdf`, lines 261-299) -/

/-- `upload_and_process_pdf`: filename-suffix check and text extraction run
before the `try` block, so their 400s surface as-is; everything inside the
`try` is wrapped into `HTTPException(500, "Error processing PDF: ...")`. -/
def upload_and_process_pdf (apiKey : String)
    (net : String → Except HTTPError String) (file : UploadedFile) :
    Except HTTPError ProcessingResponseM :=
  if pyEndsWith (pyLower file.filename) ".pdf" then
    match extract_text_from_pdf file with
    | .error e => .error e
    | .ok pdf_text =>
      if pyStrip pdf_text = "" then
        .error ⟨400, "No text found in PDF"⟩
      else
        let body : Except PyErr ProcessingResponseM := do
          let summary_response ←
            liftHTTP (call_openrouter_api apiKey net
              (create_summary_prompt pdf_text))
          let summary_data ← liftHTTP (parse_json_response summary_response)
          let quiz_response ←
            liftHTTP (call_openrouter_api apiKey net
              (create_quiz_prompt pdf_text))
          let quiz_data ← liftHTTP (parse_json_response quiz_response)
          let flashcards_response ←
            liftHTTP (call_openrouter_api apiKey net
              (create_flashcards_prompt pdf_text))
          let flashcards_data ←
            liftHTTP (parse_json_response flashcards_response)
          let s ← validateSummary summary_data
          let q ← validateQuiz quiz_data
          let f ← validateFlashcards flashcards_data
          pure ⟨s, q, f⟩
        match body with
        | .ok r => .ok r
        | .error e =>
          .error ⟨500, "Error processing PDF: " ++ e.str⟩
  else .error ⟨400, "Only PDF files are allowed"⟩

/-! ## `POST /generate-summary` / `-quiz` / `-flashcards`
(lines 301-341) -/

/-- `generate_summary`. -/
def generate_summary (apiKey : String)
    (net : String → Except HTTPError String) (text : String) :
    Except HTTPError SummaryResponseM :=
  if pyStrip text = "" then .error ⟨400, "Text cannot be empty"⟩
  else
    let body : Except PyErr SummaryResponseM := do
      let response ←
        liftHTTP (call_openrouter_api apiKey net (create_summary_prompt text))
      let data ← liftHTTP (parse_json_response response)
      validateSummary data
    match body with
    | .ok r => .ok r
    | .error e => .error ⟨500, "Error generating summary: " ++ e.str⟩

/-- `generate_quiz`. -/
def generate_quiz (apiKey : String)
    (net : String → Except HTTPError String) (text : String) :
    Except HTTPError QuizResponseM :=
  if pyStrip text = "" then .error ⟨400, "Text cannot be empty"⟩
  else
    let body : Except PyErr QuizResponseM := do
      let response ←
        liftHTTP (call_openrouter_api apiKey net (create_quiz_prompt text))
      let data ← liftHTTP (parse_json_response response)
      validateQuiz data
    match body with
    | .ok r => .ok r
    | .error e => .error ⟨500, "Error generating quiz: " ++ e.str⟩

/-- `generate_flashcards`. -/
def generate_flashcards (apiKey : String)
    (net : String → Except HTTPError String) (text : String) :
    Except HTTPError FlashcardsResponseM :=
  if pyStrip text = "" then .error ⟨400, "Text cannot be empty"⟩
  else
    let body : Except PyErr FlashcardsResponseM := do
      let response ←
        liftHTTP (call_openrouter_api apiKey net
          (create_flashcards_prompt text))
      let data ← liftHTTP (parse_json_response response)
      validateFlashcards data
    match body with
    | .ok r => .ok r
    | .error e => .error ⟨500, "Error generating flashcards: " ++ e.str⟩

/-! ## `POST /documents/upload` (`upload_document`, lines 343-379) -/

/-- The `Document` response model. -/
structure DocumentOut where
  id : String
  title : String
  created_at : String

/-- `str(int(datetime.now().timestamp()))` with the clock reading given in
microseconds since the epoch: truncation to whole seconds. -/
def docIdOfInstant (nowUsec : Nat) : String :=
  toString (nowUsec / 1000000)

/-- `upload_document`: the filename check precedes the `try` block and
surfaces its 400 as-is; extraction, the empty-text check and the store
write run inside the `try`, whose `except Exception` clause wraps ANY
exception — `HTTPException`s included — into
`HTTPException(500, "Error uploading document: ...")`.  The several
`datetime.now()` calls of one request are merged into one instant
(`nowUsec`, with `nowIso` its isoformat); no claim distinguishes them. -/
def upload_document (store : Store) (nowUsec : Nat) (nowIso : String)
    (pdf : UploadedFile) (title : String) :
    Except HTTPError (Store × DocumentOut) :=
  if pyEndsWith (pyLower pdf.filename) ".pdf" then
    let inner : Except PyErr (Store × DocumentOut) :=
      match extract_text_from_pdf pdf with
      | .error e => .error (.http e)
      | .ok pdf_text =>
        if pyStrip pdf_text = "" then
          .error (.http ⟨400, "No text found in PDF"⟩)
        else
          let doc_id := docIdOfInstant nowUsec
          let docRec : DocRecord :=
            { id := doc_id
              title := title
              created_at := nowIso
              user_id := "default-user-id"
              file_path := "/uploads/" ++ doc_id ++ ".pdf"
              pdf_text := pdf_text
              processed := false
              summary := none
              flashcards := none
              quiz := none }
          .ok (store.set doc_id docRec, ⟨doc_id, title, nowIso⟩)
    match inner with
    | .ok r => .ok r
    | .error e => .error ⟨500, "Error uploading document: " ++ e.str⟩
  else .error ⟨400, "File must be a PDF"⟩

/-! ## `POST /documents/{id}/process` (`process_document`,
lines 381-463) -/

/-- Index-carrying effectful map, modelling the `for i, x in enumerate(..)`
loops that append one transformed element per iteration and abort the
request on the first exception. -/
def mapIdxM (f : Nat → α → Except ε β) : List α → Nat → Except ε (List β)
  | [], _ => .ok []
  | a :: as, i =>
    match f i a with
    | .error e => .error e
    | .ok b =>
      match mapIdxM f as (i + 1) with
      | .error e => .error e
      | .ok bs => .ok (b :: bs)

/-- The summary reshaping (lines 410-415). -/
def buildStoredSummary (document_id nowIso : String) (summary_data : Json) :
    Except PyErr StoredSummary :=
  match pyGet summary_data "summary" (.str "Summary not available") with
  | .error e => .error e
  | .ok content =>
    .ok { id := "sum-" ++ document_id
          document_id := document_id
          content := content
          created_at := nowIso }

/-- One iteration of the flashcard loop (lines 419-426). -/
def transformFlashcard (document_id nowIso : String) (i : Nat) (card : Json) :
    Except PyErr StoredFlashcard :=
  match pyGet card "front" (.str "") with
  | .error e => .error e
  | .ok front =>
    match pyGet card "back" (.str "") with
    | .error e => .error e
    | .ok back =>
      .ok { id := "fc-" ++ document_id ++ "-" ++ toString (i + 1)
            document_id := document_id
            question := front
            answer := back
            created_at := nowIso }

/-- One iteration of the quiz-question loop (lines 430-438).  The
`correct_answer` field evaluates
`q.get("options", [""])[q.get("correct_answer", 0)] if q.get("options")
else ""`: when the `options` value is truthy it is subscripted with the
decoded index (Python semantics, including negative wrap-around and
`IndexError` outside `[-len, len)`); when falsy or absent the empty string
is substituted. -/
def transformQuestion (document_id nowIso : String) (i : Nat) (q : Json) :
    Except PyErr StoredQuizQuestion :=
  match pyGet q "question" (.str "") with
  | .error e => .error e
  | .ok question =>
    match pyGet q "options" (.arr []) with
    | .error e => .error e
    | .ok options =>
      match pyGet q "options" .null with
      | .error e => .error e
      | .ok optsTruthyVal =>
        let correctE : Except PyErr Json :=
          if optsTruthyVal.truthy then
            match pyGet q "options" (.arr [.str ""]) with
            | .error e => .error e
            | .ok opts =>
              match pyGet q "correct_answer" (.numI 0) with
              | .error e => .error e
              | .ok idx => pySubscript opts idx
          else .ok (.str "")
        match correctE with
        | .error e => .error e
        | .ok correct =>
          .ok { id := "q-" ++ document_id ++ "-" ++ toString (i + 1)
                quiz_id := "quiz-" ++ document_id
                question := question
                options := options
                correct_answer := correct
                created_at := nowIso }

/-- The generation pipeline of `process_document` (lines 394-446): three
LLM calls with their parses, then the three reshaping steps, in source
order.  Every failure is an exception that propagates to the handler's
`except` clause. -/
def generateArtifacts (apiKey : String)
    (net : String → Except HTTPError String)
    (document_id title nowIso pdf_text : String) :
    Except PyErr (StoredSummary × List StoredFlashcard × StoredQuiz) := do
  let summary_response ←
    liftHTTP (call_openrouter_api apiKey net (create_summary_prompt pdf_text))
  let summary_data ← liftHTTP (parse_json_response summary_response)
  let quiz_response ←
    liftHTTP (call_openrouter_api apiKey net (create_quiz_prompt pdf_text))
  let quiz_data ← liftHTTP (parse_json_response quiz_response)
  let flashcards_response ←
    liftHTTP (call_openrouter_api apiKey net
      (create_flashcards_prompt pdf_text))
  let flashcards_data ← liftHTTP (parse_json_response flashcards_response)
  let summary ← buildStoredSummary document_id nowIso summary_data
  let fcVal ← pyGet flashcards_data "flashcards" (.arr [])
  let fcItems ← pyIterList fcVal
  let flashcards ← mapIdxM (transformFlashcard document_id nowIso) fcItems 0
  let qVal ← pyGet quiz_data "questions" (.arr [])
  let qItems ← pyIterList qVal
  let questions ← mapIdxM (transformQuestion document_id nowIso) qItems 0
  pure (summary,
        flashcards,
        { id := "quiz-" ++ document_id
          document_id := document_id
          title := "Quiz: " ++ title
          created_at := nowIso
          questions := questions })

/-- The status envelope returned on success (lines 456-460). -/
structure ProcessEnvelope where
  status : String
  message : String
  document_id : String

/-- `process_document`: the WHOLE body, including the 404 and 400 raises,
sits inside `try: ... except Exception as e`, whose clause re-raises
everything as `HTTPException(500, "Error processing document: " + str(e))`
— so the intended 404/400 never reach the client.  On success the stored
record is updated in place (`dict.update` overwrites the four keys) and a
status envelope is returned. -/
def process_document (apiKey : String)
    (net : String → Except HTTPError String) (nowIso : String)
    (store : Store) (document_id : String) :
    Except HTTPError (Store × ProcessEnvelope) :=
  let inner : Except PyErr (Store × ProcessEnvelope) :=
    match store document_id with
    | none => .error (.http ⟨404, "Document not found"⟩)
    | some document_data =>
      if document_data.pdf_text = "" then
        .error (.http ⟨400, "No text content found for this document"⟩)
      else
        match generateArtifacts apiKey net document_id document_data.title
            nowIso document_data.pdf_text with
        | .error e => .error e
        | .ok (summary, flashcards, quiz) =>
          .ok (store.set document_id
                 { document_data with
                   summary := some summary
                   flashcards := some flashcards
                   quiz := some quiz
                   processed := true },
               ⟨"success",
                "Document processed successfully with AI-generated content",
                document_id⟩)
  match inner with
  | .ok r => .ok r
  | .error e => .error ⟨500, "Error processing document: " ++ e.str⟩

/-! ## `GET /documents/{id}` (`get_document`, lines 491-587) -/

/-- The response shape of `GET /documents/{id}`. -/
structure DocView where
  id : String
  title : String
  created_at : String
  user_id : String
  file_path : String
  summary : Option StoredSummary
  flashcards : List StoredFlashcard
  quiz : Option StoredQuiz

/-- The hardcoded demo record returned for unknown ids (lines 525-585). -/
def mockDocument (document_id nowIso : String) : DocView :=
  { id := document_id
    title := "Sample Document: AI Fundamentals"
    created_at := nowIso
    user_id := "default-user-id"
    file_path := "/uploads/" ++ document_id ++ ".pdf"
    summary := some
      { id := "sum-" ++ document_id
        document_id := document_id
        content := .str "This document provides a comprehensive introduction to Artificial Intelligence, covering key concepts such as machine learning, neural networks, natural language processing, and computer vision. It explores the historical development of AI, current applications across various industries, and future prospects for AI technology."
        created_at := nowIso }
    flashcards :=
      [ { id := "fc-" ++ document_id ++ "-1"
          document_id := document_id
          question := .str "What is Artificial Intelligence?"
          answer := .str "Artificial Intelligence is the simulation of human intelligence processes by machines, especially computer systems."
          created_at := nowIso },
        { id := "fc-" ++ document_id ++ "-2"
          document_id := document_id
          question := .str "What are the main types of machine learning?"
          answer := .str "Supervised learning, unsupervised learning, and reinforcement learning."
          created_at := nowIso },
        { id := "fc-" ++ document_id ++ "-3"
          document_id := document_id
          question := .str "What is a neural network?"
          answer := .str "A computing system inspired by biological neural networks that processes information using interconnected nodes."
          created_at := nowIso } ]
    quiz := some
      { id := "quiz-" ++ document_id
        document_id := document_id
        title := "AI Fundamentals Quiz"
        created_at := nowIso
        questions :=
          [ { id := "q-" ++ document_id ++ "-1"
              quiz_id := "quiz-" ++ document_id
              question := .str "Which of the following is a subset of AI focused on learning from data?"
              options := .arr [.str "Machine Learning", .str "Computer Graphics", .str "Database Management", .str "Web Development"]
              correct_answer := .str "Machine Learning"
              created_at := nowIso },
            { id := "q-" ++ document_id ++ "-2"
              quiz_id := "quiz-" ++ document_id
              question := .str "What type of AI can perform any intellectual task that a human can do?"
              options := .arr [.str "Narrow AI", .str "General AI", .str "Super AI", .str "Weak AI"]
              correct_answer := .str "General AI"
              created_at := nowIso } ] } }

/-- `get_document`: full record if processed, partial record if not, the
demo mock for unknown ids.  The surrounding `try/except` is unreachable in
the model because every stored record carries all accessed keys. -/
def get_document (store : Store) (nowIso : String) (document_id : String) :
    DocView :=
  match store document_id with
  | some doc_data =>
    if doc_data.processed then
      { id := doc_data.id
        title := doc_data.title
        created_at := doc_data.created_at
        user_id := doc_data.user_id
        file_path := doc_data.file_path
        summary := doc_data.summary
        flashcards := doc_data.flashcards.getD []
        quiz := doc_data.quiz }
    else
      { id := doc_data.id
        title := doc_data.title
        created_at := doc_data.created_at
        user_id := doc_data.user_id
        file_path := doc_data.file_path
        summary := none
        flashcards := []
        quiz := none }
  | none => mockDocument document_id nowIso

/-! ## Auxiliary definition for reasoning about `Nat.repr` -/

/-- Decimal digits of `n`, least significant first; reference function used
to prove that `str(int(...))` is injective. -/
def natDigitsRev (n : Nat) : List Char :=
  if n < 10 then [Nat.digitChar n]
  else Nat.digitChar (n % 10) :: natDigitsRev (n / 10)
decreasing_by exact Nat.div_lt_self (by omega) (by omega)

/-! ## Concrete fixtures used by witnesses and counterexamples -/

/-- An oracle whose completion text is the empty JSON object. -/
def netEmptyObj : String → Except HTTPError String := fun _ => .ok "\x7b\x7d"

/-- An oracle returning a well-formed summary payload. -/
def netSummaryS : String → Except HTTPError String := fun _ =>
  .ok "\x7b\"summary\": \"s\", \"key_points\": []\x7d"

/-- An oracle returning one quiz question with two options and index 1. -/
def netQuizAB : String → Except HTTPError String := fun _ =>
  .ok "\x7b\"questions\": [\x7b\"options\": [\"a\", \"b\"], \"correct_answer\": 1\x7d]\x7d"

/-- An oracle returning one quiz question with two options and the Python
negative index -1. -/
def netQuizNeg : String → Except HTTPError String := fun _ =>
  .ok "\x7b\"questions\": [\x7b\"options\": [\"a\", \"b\"], \"correct_answer\": -1\x7d]\x7d"

/-- An oracle returning one quiz question whose index 5 is out of range for
its two options. -/
def netQuizOOB : String → Except HTTPError String := fun _ =>
  .ok "\x7b\"questions\": [\x7b\"options\": [\"a\", \"b\"], \"correct_answer\": 5\x7d]\x7d"

/-- A valid one-page PDF whose text is "hello". -/
def pdfFileHello : UploadedFile := ⟨"a.pdf", .ok ["hello"]⟩

/-- A syntactically valid PDF whose extracted text is whitespace-only. -/
def emptyTextPdf : UploadedFile := ⟨"empty.pdf", .ok [" ", "\t"]⟩

/-- A freshly uploaded record with text `"t"` under id `"7"`. -/
def sampleDoc : DocRecord :=
  { id := "7"
    title := "T"
    created_at := "c"
    user_id := "default-user-id"
    file_path := "/uploads/7.pdf"
    pdf_text := "t"
    processed := false
    summary := none
    flashcards := none
    quiz := none }

/-- A store holding `sampleDoc` under id `"7"`. -/
def sampleStore : Store := Store.set emptyStore "7" sampleDoc

/-- A stored record whose `pdf_text` is empty. -/
def emptyTextDoc : DocRecord := { sampleDoc with id := "d", pdf_text := "" }

/-- A store holding `emptyTextDoc` under id `"d"`. -/
def emptyTextStore : Store := Store.set emptyStore "d" emptyTextDoc

/-- An upload whose filename does not end in ".pdf". -/
def txtFile : UploadedFile := ⟨"notes.txt", .ok ["x"]⟩

/-- The record produced by uploading `pdfFileHello` at instant 100200000. -/
def docRecA : DocRecord :=
  { id := "100"
    title := "D1"
    created_at := "i1"
    user_id := "default-user-id"
    file_path := "/uploads/100.pdf"
    pdf_text := "hello"
    processed := false
    summary := none
    flashcards := none
    quiz := none }

/-- The record produced by uploading `pdfFileHello` at instant 200500000. -/
def docRecB : DocRecord :=
  { id := "200"
    title := "D2"
    created_at := "i2"
    user_id := "default-user-id"
    file_path := "/uploads/200.pdf"
    pdf_text := "hello"
    processed := false
    summary := none
    flashcards := none
    quiz := none }

/-- The stored summary produced from a reply without a "summary" key. -/
def storedSummaryNA (nowIso : String) : StoredSummary :=
  ⟨"sum-7", "7", .str "Summary not available", nowIso⟩

/-- The stored quiz produced for document "7" from `netQuizAB`'s reply. -/
def quizABStored (nowIso : String) : StoredQuiz :=
  ⟨"quiz-7", "7", "Quiz: T", nowIso,
   [⟨"q-7-1", "quiz-7", .str "", .arr [.str "a", .str "b"], .str "b",
     nowIso⟩]⟩

/-- The stored quiz produced for document "7" from an empty-object reply. -/
def quizEmptyStored (nowIso : String) : StoredQuiz :=
  ⟨"quiz-7", "7", "Quiz: T", nowIso, []⟩

/-- `sampleDoc` after processing with `netQuizAB` (also the result with
`netQuizNeg`: index -1 selects the last option). -/
def recAfterAB (nowIso : String) : DocRecord :=
  { sampleDoc with
    processed := true
    summary := some (storedSummaryNA nowIso)
    flashcards := some []
    quiz := some (quizABStored nowIso) }

/-- `sampleDoc` after processing with `netEmptyObj`. -/
def recAfterEmpty (nowIso : String) : DocRecord :=
  { sampleDoc with
    processed := true
    summary := some (storedSummaryNA nowIso)
    flashcards := some []
    quiz := some (quizEmptyStored nowIso) }

/-- The success envelope for document "7". -/
def envelope7 : ProcessEnvelope :=
  ⟨"success", "Document processed successfully with AI-generated content",
   "7"⟩

/-! # Helper lemmas -/

theorem ok_bind (a : α) (f : α → Except ε β) :
    (Except.ok a >>= f) = f a := rfl

theorem error_bind (e : ε) (f : α → Except ε β) :
    ((Except.error e : Except ε α) >>= f) = Except.error e := rfl

/-- If every continuation value errors, the bind errors. -/
theorem bind_error_all {x : Except ε α} {f : α → Except ε β}
    (h : ∀ a, ∃ e, f a = .error e) : ∃ e, (x >>= f) = .error e := by
  cases x with
  | error e => exact ⟨e, rfl⟩
  | ok a => simpa [ok_bind] using h a

/-- A successful gateway call is a successful oracle call. -/
theorem call_openrouter_api_ok {apiKey : String}
    {net : String → Except HTTPError String} {prompt r : String}
    (h : call_openrouter_api apiKey net prompt = .ok r) :
    net prompt = .ok r := by
  unfold call_openrouter_api at h
  split at h
  · exact absurd h (by simp)
  · exact h

theorem liftHTTP_ok {x : Except HTTPError α} {a : α}
    (h : liftHTTP x = .ok a) : x = .ok a := by
  unfold liftHTTP at h
  split at h <;> simp_all

/-- Element-wise description of a successful `mapIdxM` run. -/
theorem mapIdxM_get {f : Nat → α → Except ε β} :
    ∀ (l : List α) (s : Nat) (res : List β), mapIdxM f l s = .ok res →
      ∀ (i : Nat) (a : α), l.get? i = some a →
        ∃ b, res.get? i = some b ∧ f (s + i) a = .ok b := by
  intro l
  induction l with
  | nil => intro s res _ i a hi; simp at hi
  | cons x xs ih =>
    intro s res hres i a hi
    unfold mapIdxM at hres
    cases hfx : f s x with
    | error e => rw [hfx] at hres; exact absurd hres (by simp)
    | ok b =>
      rw [hfx] at hres
      cases hrest : mapIdxM f xs (s + 1) with
      | error e => rw [hrest] at hres; exact absurd hres (by simp)
      | ok bs =>
        rw [hrest] at hres
        cases hres
        cases i with
        | zero =>
          simp at hi
          exact ⟨b, by simp, by rw [hi] at hfx; simpa using hfx⟩
        | succ j =>
          simp only [List.get?_cons_succ] at hi
          obtain ⟨c, hc, hfc⟩ := ih (s + 1) bs hrest j a hi
          exact ⟨c, by simpa using hc, by
            have : s + 1 + j = s + (j + 1) := by omega
            rwa [this] at hfc⟩

/-- If some member of the list fails the transform at every position, the
whole loop fails. -/
theorem mapIdxM_error_of_mem {f : Nat → α → Except ε β} {l : List α} {a : α}
    (ha : a ∈ l) (herr : ∀ i, ∃ e, f i a = .error e) :
    ∀ s, ∃ e, mapIdxM f l s = .error e := by
  induction l with
  | nil => cases ha
  | cons x xs ih =>
    intro s
    rcases List.mem_cons.mp ha with rfl | hmem
    · obtain ⟨e, he⟩ := herr s
      exact ⟨e, by unfold mapIdxM; rw [he]⟩
    · cases hfx : f s x with
      | error e => exact ⟨e, by unfold mapIdxM; rw [hfx]⟩
      | ok b =>
        obtain ⟨e, he⟩ := ih hmem (s + 1)
        exact ⟨e, by unfold mapIdxM; rw [hfx, he]⟩

/-- If every element succeeds at every position, the loop succeeds. -/
theorem mapIdxM_ok_of_all {f : Nat → α → Except ε β} {l : List α}
    (h : ∀ a ∈ l, ∀ i, ∃ b, f i a = .ok b) :
    ∀ s, ∃ res, mapIdxM f l s = .ok res := by
  induction l with
  | nil => exact fun s => ⟨[], rfl⟩
  | cons x xs ih =>
    intro s
    obtain ⟨b, hb⟩ := h x (by simp) s
    obtain ⟨res, hres⟩ := ih (fun a ha i => h a (by simp [ha]) i) (s + 1)
    exact ⟨b :: res, by unfold mapIdxM; rw [hb, hres]⟩

/-! ### `Nat.repr` is injective (needed for id distinctness) -/

theorem natDigitsRev_lt {n : Nat} (h : n < 10) :
    natDigitsRev n = [Nat.digitChar n] := by
  conv_lhs => rw [natDigitsRev]
  rw [if_pos h]

theorem natDigitsRev_ge {n : Nat} (h : ¬ n < 10) :
    natDigitsRev n = Nat.digitChar (n % 10) :: natDigitsRev (n / 10) := by
  conv_lhs => rw [natDigitsRev]
  rw [if_neg h]

theorem toDigitsCore_eq : ∀ (fuel n : Nat) (ds : List Char), n ≤ fuel →
    Nat.toDigitsCore 10 (fuel + 1) n ds = (natDigitsRev n).reverse ++ ds := by
  intro fuel
  induction fuel with
  | zero =>
    intro n ds h
    have hn : n = 0 := by omega
    subst hn
    simp [Nat.toDigitsCore, natDigitsRev]
  | succ f ih =>
    intro n ds h
    have hstep : Nat.toDigitsCore 10 (f + 1 + 1) n ds =
        if n / 10 = 0 then Nat.digitChar (n % 10) :: ds
        else Nat.toDigitsCore 10 (f + 1) (n / 10)
          (Nat.digitChar (n % 10) :: ds) := rfl
    by_cases h10 : n < 10
    · rw [hstep, if_pos (by omega)]
      rw [natDigitsRev_lt h10]
      simp [Nat.mod_eq_of_lt h10]
    · have hne : ¬ n / 10 = 0 := by omega
      rw [hstep, if_neg hne]
      rw [ih (n / 10) (Nat.digitChar (n % 10) :: ds) (by omega)]
      rw [natDigitsRev_ge h10]
      simp

theorem natDigitsRev_ne_nil (n : Nat) : natDigitsRev n ≠ [] := by
  by_cases h : n < 10
  · rw [natDigitsRev_lt h]; simp
  · rw [natDigitsRev_ge h]; simp

theorem digitChar_inj :
    ∀ a, a < 10 → ∀ b, b < 10 → Nat.digitChar a = Nat.digitChar b → a = b := by
  decide

theorem natDigitsRev_inj : ∀ m n : Nat, natDigitsRev m = natDigitsRev n → m = n := by
  intro m
  induction m using Nat.strong_induction_on with
  | _ m ih =>
    intro n h
    by_cases hm : m < 10 <;> by_cases hn : n < 10
    · rw [natDigitsRev_lt hm, natDigitsRev_lt hn] at h
      injection h with h1 _
      exact digitChar_inj m hm n hn h1
    · rw [natDigitsRev_lt hm, natDigitsRev_ge hn] at h
      injection h with _ h2
      exact absurd h2.symm (natDigitsRev_ne_nil (n / 10))
    · rw [natDigitsRev_ge hm, natDigitsRev_lt hn] at h
      injection h with _ h2
      exact absurd h2 (natDigitsRev_ne_nil (m / 10))
    · rw [natDigitsRev_ge hm, natDigitsRev_ge hn] at h
      injection h with h1 h2
      have e1 : m % 10 = n % 10 :=
        digitChar_inj _ (Nat.mod_lt _ (by omega)) _ (Nat.mod_lt _ (by omega)) h1
      have e2 : m / 10 = n / 10 :=
        ih (m / 10) (Nat.div_lt_self (by omega) (by omega)) _ h2
      omega

theorem natRepr_eq (n : Nat) : Nat.repr n = (natDigitsRev n).reverse.asString := by
  show (Nat.toDigits 10 n).asString = _
  unfold Nat.toDigits
  rw [toDigitsCore_eq n n [] le_rfl]
  simp

theorem natRepr_inj {m n : Nat} (h : Nat.repr m = Nat.repr n) : m = n := by
  rw [natRepr_eq, natRepr_eq] at h
  have hl : (natDigitsRev m).reverse = (natDigitsRev n).reverse := by
    have := congrArg String.data h
    simpa [List.asString] using this
  exact natDigitsRev_inj m n (List.reverse_injective hl)

/-- Equal assigned ids force equal whole-second clock readings. -/
theorem docIdOfInstant_inj {u1 u2 : Nat}
    (h : docIdOfInstant u1 = docIdOfInstant u2) :
    u1 / 1000000 = u2 / 1000000 :=
  natRepr_inj h

/-! ### Substring helpers for the prompt templates -/

theorem infix_middle (a t b : String) : t.data <:+: (a ++ t ++ b).data := by
  rw [String.data_append, String.data_append]
  exact ⟨a.data, b.data, by simp⟩

theorem infix_in_post (p b : String) (h : p.data <:+: b.data) (a t : String) :
    p.data <:+: (a ++ t ++ b).data := by
  rw [String.data_append, String.data_append]
  obtain ⟨u, v, huv⟩ := h
  exact ⟨a.data ++ t.data ++ u, v, by simp [← huv]⟩

set_option maxRecDepth 8000 in
theorem jsonFormat_in_sumPost :
    ("JSON format" : String).data <:+: sumPromptPost.data := by decide

set_option maxRecDepth 8000 in
theorem jsonFormat_in_quizPost :
    ("JSON format" : String).data <:+: quizPromptPost.data := by decide

set_option maxRecDepth 8000 in
theorem jsonFormat_in_fcPost :
    ("JSON format" : String).data <:+: fcPromptPost.data := by decide

/-! # Claims -/

/-- C7: for every non-empty input text, each of the three prompt builders
returns a string containing the input text verbatim as a substring and
containing the literal phrase "JSON format". -/
theorem claim_C7 (text : String) (_h : text ≠ "") :
    (text.data <:+: (create_summary_prompt text).data ∧
     ("JSON format" : String).data <:+: (create_summary_prompt text).data) ∧
    (text.data <:+: (create_quiz_prompt text).data ∧
     ("JSON format" : String).data <:+: (create_quiz_prompt text).data) ∧
    (text.data <:+: (create_flashcards_prompt text).data ∧
     ("JSON format" : String).data <:+: (create_flashcards_prompt text).data) :=
  ⟨⟨infix_middle sumPromptPre text sumPromptPost,
    infix_in_post _ _ jsonFormat_in_sumPost sumPromptPre text⟩,
   ⟨infix_middle quizPromptPre text quizPromptPost,
    infix_in_post _ _ jsonFormat_in_quizPost quizPromptPre text⟩,
   ⟨infix_middle fcPromptPre text fcPromptPost,
    infix_in_post _ _ jsonFormat_in_fcPost fcPromptPre text⟩⟩

/-- Witness for C7 at the concrete text "x". -/
theorem claim_C7_witness :
    ("x" : String) ≠ "" ∧
    ((("x" : String).data <:+: (create_summary_prompt "x").data ∧
      ("JSON format" : String).data <:+: (create_summary_prompt "x").data) ∧
     (("x" : String).data <:+: (create_quiz_prompt "x").data ∧
      ("JSON format" : String).data <:+: (create_quiz_prompt "x").data) ∧
     (("x" : String).data <:+: (create_flashcards_prompt "x").data ∧
      ("JSON format" : String).data <:+: (create_flashcards_prompt "x").data)) :=
  ⟨by decide, claim_C7 "x" (by decide)⟩

/-- C8: an uploaded file whose name does not end in ".pdf"
(case-insensitively) is rejected with 400 by both `/upload-pdf` and
`/documents/upload`, whatever the extraction oracle would have returned
(so no extraction is consulted). -/
theorem claim_C8 (apiKey : String) (net : String → Except HTTPError String)
    (f : UploadedFile) (store : Store) (nowUsec : Nat) (nowIso title : String)
    (h : pyEndsWith (pyLower f.filename) ".pdf" = false) :
    upload_and_process_pdf apiKey net f =
      .error ⟨400, "Only PDF files are allowed"⟩ ∧
    upload_document store nowUsec nowIso f title =
      .error ⟨400, "File must be a PDF"⟩ := by
  constructor
  · unfold upload_and_process_pdf
    rw [h]
    rfl
  · unfold upload_document
    rw [h]
    rfl

/-- Witness for C8 at a concrete ".txt" upload. -/
theorem claim_C8_witness :
    pyEndsWith (pyLower txtFile.filename) ".pdf" = false ∧
    (upload_and_process_pdf "k" netEmptyObj txtFile =
       .error ⟨400, "Only PDF files are allowed"⟩ ∧
     upload_document emptyStore 0 "now" txtFile "T" =
       .error ⟨400, "File must be a PDF"⟩) :=
  ⟨by decide, claim_C8 "k" netEmptyObj txtFile emptyStore 0 "now" "T" (by decide)⟩

/-- C4: a syntactically valid PDF whose extracted text is whitespace-only
gets 400 "No text found in PDF" from `/upload-pdf`; on `/documents/upload`
that same `HTTPException(400)` is raised inside the handler's
`try/except Exception` block and is therefore re-raised as a 500 whose
detail wraps the 400 — the claimed 400 never reaches the client there. -/
theorem claim_C4 (apiKey : String) (net : String → Except HTTPError String)
    (store : Store) (nowUsec : Nat) (nowIso title : String) :
    upload_and_process_pdf apiKey net emptyTextPdf =
      .error ⟨400, "No text found in PDF"⟩ ∧
    upload_document store nowUsec nowIso emptyTextPdf title =
      .error ⟨500, "Error uploading document: 400: No text found in PDF"⟩ :=
  ⟨rfl, rfl⟩

/-- C1: `POST /documents/{id}/process` raises its 404 (unknown id) and its
400 (empty stored text) inside the handler's own `try/except Exception`
block, which re-raises them as `HTTPException(500, "Error processing
document: ...")` — so the client observes 500, not 404/400. -/
theorem claim_C1 (apiKey : String) (net : String → Except HTTPError String)
    (nowIso : String) :
    process_document apiKey net nowIso emptyStore "1" =
      .error ⟨500, "Error processing document: 404: Document not found"⟩ ∧
    process_document apiKey net nowIso emptyTextStore "d" =
      .error ⟨500,
        "Error processing document: 400: No text content found for this document"⟩ :=
  ⟨rfl, rfl⟩

/-- C2 fails on the code: `os.getenv` is called WITH a hardcoded default
key, so an absent environment variable resolves to that default, which is
non-empty, and the gateway proceeds to the network instead of failing with
the configuration error — here a full successful `/generate-summary`
round-trip with the variable absent. -/
theorem claim_C2_counterexample :
    resolveApiKey none ≠ "" ∧
    resolveApiKey none = DEFAULT_OPENROUTER_API_KEY ∧
    generate_summary (resolveApiKey none) netSummaryS "hi" = .ok ⟨"s", []⟩ :=
  ⟨by decide, rfl, rfl⟩

/-- C2 amended: the configuration error fires exactly when the RESOLVED
key is empty — i.e. when the variable is set to the empty string — and
then every generation endpoint fails with a 500 whose detail wraps
"OpenRouter API key not configured" (each handler's `except` clause
re-wraps the gateway's 500); an absent variable instead falls back to the
hardcoded default key. -/
theorem claim_C2_amended (env : Option String)
    (net : String → Except HTTPError String) (hk : resolveApiKey env = "") :
    (∀ text, pyStrip text ≠ "" →
      generate_summary (resolveApiKey env) net text =
        .error ⟨500,
          "Error generating summary: 500: OpenRouter API key not configured"⟩) ∧
    (∀ text, pyStrip text ≠ "" →
      generate_quiz (resolveApiKey env) net text =
        .error ⟨500,
          "Error generating quiz: 500: OpenRouter API key not configured"⟩) ∧
    (∀ text, pyStrip text ≠ "" →
      generate_flashcards (resolveApiKey env) net text =
        .error ⟨500,
          "Error generating flashcards: 500: OpenRouter API key not configured"⟩) ∧
    (∀ (f : UploadedFile) (pdf_text : String),
      pyEndsWith (pyLower f.filename) ".pdf" = true →
      extract_text_from_pdf f = .ok pdf_text → pyStrip pdf_text ≠ "" →
      upload_and_process_pdf (resolveApiKey env) net f =
        .error ⟨500,
          "Error processing PDF: 500: OpenRouter API key not configured"⟩) ∧
    (∀ (store : Store) (nowIso document_id : String) (docRec : DocRecord),
      store document_id = some docRec → docRec.pdf_text ≠ "" →
      process_document (resolveApiKey env) net nowIso store document_id =
        .error ⟨500,
          "Error processing document: 500: OpenRouter API key not configured"⟩) := by
  rw [hk]
  refine ⟨?_, ?_, ?_, ?_, ?_⟩
  · intro text ht
    unfold generate_summary
    rw [if_neg ht]
    have hc : call_openrouter_api "" net (create_summary_prompt text) =
        .error ⟨500, "OpenRouter API key not configured"⟩ := rfl
    rw [hc]
    rfl
  · intro text ht
    unfold generate_quiz
    rw [if_neg ht]
    have hc : call_openrouter_api "" net (create_quiz_prompt text) =
        .error ⟨500, "OpenRouter API key not configured"⟩ := rfl
    rw [hc]
    rfl
  · intro text ht
    unfold generate_flashcards
    rw [if_neg ht]
    have hc : call_openrouter_api "" net (create_flashcards_prompt text) =
        .error ⟨500, "OpenRouter API key not configured"⟩ := rfl
    rw [hc]
    rfl
  · intro f pdf_text hf hx ht
    unfold upload_and_process_pdf
    simp only [hf, hx, if_neg ht, if_true]
    have hc : call_openrouter_api "" net (create_summary_prompt pdf_text) =
        .error ⟨500, "OpenRouter API key not configured"⟩ := rfl
    rw [hc]
    rfl
  · intro store nowIso document_id docRec hs ht
    unfold process_document
    simp only [hs, if_neg ht]
    have hga : generateArtifacts "" net document_id docRec.title nowIso
        docRec.pdf_text =
        .error (.http ⟨500, "OpenRouter API key not configured"⟩) := rfl
    rw [hga]
    rfl

/-- Witness for C2 amended: the variable set to the empty string makes all
five generation endpoints fail with the wrapped configuration error. -/
theorem claim_C2_amended_witness :
    resolveApiKey (some "") = "" ∧
    generate_summary (resolveApiKey (some "")) netEmptyObj "hi" =
      .error ⟨500,
        "Error generating summary: 500: OpenRouter API key not configured"⟩ ∧
    generate_quiz (resolveApiKey (some "")) netEmptyObj "hi" =
      .error ⟨500,
        "Error generating quiz: 500: OpenRouter API key not configured"⟩ ∧
    generate_flashcards (resolveApiKey (some "")) netEmptyObj "hi" =
      .error ⟨500,
        "Error generating flashcards: 500: OpenRouter API key not configured"⟩ ∧
    upload_and_process_pdf (resolveApiKey (some "")) netEmptyObj pdfFileHello =
      .error ⟨500,
        "Error processing PDF: 500: OpenRouter API key not configured"⟩ ∧
    process_document (resolveApiKey (some "")) netEmptyObj "now" sampleStore
        "7" =
      .error ⟨500,
        "Error processing document: 500: OpenRouter API key not configured"⟩ :=
  ⟨rfl,
   (claim_C2_amended (some "") netEmptyObj rfl).1 "hi" (by decide),
   (claim_C2_amended (some "") netEmptyObj rfl).2.1 "hi" (by decide),
   (claim_C2_amended (some "") netEmptyObj rfl).2.2.1 "hi" (by decide),
   (claim_C2_amended (some "") netEmptyObj rfl).2.2.2.1 pdfFileHello "hello"
     (by decide) rfl (by decide),
   (claim_C2_amended (some "") netEmptyObj rfl).2.2.2.2 sampleStore "now" "7"
     sampleDoc rfl (by decide)⟩

/-- The document id a successful `/documents/upload` returns is the decimal
string of the whole-second timestamp. -/
theorem upload_document_ok_id {store : Store} {u : Nat} {nowIso : String}
    {pdf : UploadedFile} {title : String} {st : Store} {d : DocumentOut}
    (h : upload_document store u nowIso pdf title = .ok (st, d)) :
    d.id = docIdOfInstant u := by
  unfold upload_document at h
  split at h
  · split at h
    · exact absurd h (by simp)
    · split at h
      · exact absurd h (by simp)
      · simp only [Except.ok.injEq, Prod.mk.injEq] at h
        rw [← h.2]
  · exact absurd h (by simp)

/-- C3 fails on the code: two distinct successful uploads within the same
whole second are assigned the SAME id (`str(int(timestamp))` has
one-second resolution), the second silently overwriting the first. -/
theorem claim_C3_counterexample :
    ∃ (st1 : Store) (d1 : DocumentOut) (st2 : Store) (d2 : DocumentOut),
      upload_document emptyStore 100200000 "i1" pdfFileHello "D1" =
        .ok (st1, d1) ∧
      upload_document st1 100900000 "i2" pdfFileHello "D2" = .ok (st2, d2) ∧
      (100200000 : Nat) ≠ 100900000 ∧ d1.id = d2.id :=
  ⟨_, _, _, _, rfl, rfl, by decide, rfl⟩

/-- C3 amended: an assigned id is the decimal string of the upload
instant's whole second; ids of two successful uploads are distinct IFF the
instants fall in distinct whole seconds — in particular uploads within one
second collide, so ids are not unique per process lifetime. -/
theorem claim_C3_amended
    (s1 : Store) (u1 : Nat) (i1 : String) (f1 : UploadedFile) (t1 : String)
    (st1 : Store) (d1 : DocumentOut)
    (s2 : Store) (u2 : Nat) (i2 : String) (f2 : UploadedFile) (t2 : String)
    (st2 : Store) (d2 : DocumentOut)
    (h1 : upload_document s1 u1 i1 f1 t1 = .ok (st1, d1))
    (h2 : upload_document s2 u2 i2 f2 t2 = .ok (st2, d2)) :
    d1.id = docIdOfInstant u1 ∧ d2.id = docIdOfInstant u2 ∧
    (u1 / 1000000 = u2 / 1000000 → d1.id = d2.id) ∧
    (u1 / 1000000 ≠ u2 / 1000000 → d1.id ≠ d2.id) := by
  have e1 := upload_document_ok_id h1
  have e2 := upload_document_ok_id h2
  refine ⟨e1, e2, ?_, ?_⟩
  · intro hsec
    rw [e1, e2]
    unfold docIdOfInstant
    rw [hsec]
  · intro hsec heq
    rw [e1, e2] at heq
    exact hsec (docIdOfInstant_inj heq)

/-- Witness for C3 amended: two uploads in different whole seconds. -/
theorem claim_C3_amended_witness :
    upload_document emptyStore 100200000 "i1" pdfFileHello "D1" =
      .ok (Store.set emptyStore "100" docRecA, ⟨"100", "D1", "i1"⟩) ∧
    upload_document emptyStore 200500000 "i2" pdfFileHello "D2" =
      .ok (Store.set emptyStore "200" docRecB, ⟨"200", "D2", "i2"⟩) ∧
    (("100" : String) = docIdOfInstant 100200000 ∧
     ("200" : String) = docIdOfInstant 200500000 ∧
     (100200000 / 1000000 = 200500000 / 1000000 →
       ("100" : String) = "200") ∧
     (100200000 / 1000000 ≠ 200500000 / 1000000 →
       ("100" : String) ≠ "200")) :=
  ⟨rfl, rfl,
   claim_C3_amended emptyStore 100200000 "i1" pdfFileHello "D1"
     (Store.set emptyStore "100" docRecA) ⟨"100", "D1", "i1"⟩
     emptyStore 200500000 "i2" pdfFileHello "D2"
     (Store.set emptyStore "200" docRecB) ⟨"200", "D2", "i2"⟩ rfl rfl⟩

/-- Inversion of a successful `process_document` call: the id was present
with non-empty text, generation succeeded, and the store was updated by
overwriting the four derived keys of the existing record. -/
theorem process_document_ok_inv {apiKey : String}
    {net : String → Except HTTPError String} {nowIso : String} {store : Store}
    {document_id : String} {store2 : Store} {env : ProcessEnvelope}
    (h : process_document apiKey net nowIso store document_id =
      .ok (store2, env)) :
    ∃ (docRec : DocRecord) (S : StoredSummary) (F : List StoredFlashcard)
      (Q : StoredQuiz),
      store document_id = some docRec ∧ docRec.pdf_text ≠ "" ∧
      generateArtifacts apiKey net document_id docRec.title nowIso
        docRec.pdf_text = .ok (S, F, Q) ∧
      store2 = store.set document_id
        { docRec with
          summary := some S
          flashcards := some F
          quiz := some Q
          processed := true } ∧
      env = ⟨"success",
        "Document processed successfully with AI-generated content",
        document_id⟩ := by
  cases hs : store document_id with
  | none =>
    simp only [process_document, hs] at h
    exact absurd h (by simp)
  | some docRec =>
    simp only [process_document, hs] at h
    by_cases ht : docRec.pdf_text = ""
    · rw [if_pos ht] at h
      exact absurd h (by simp)
    · rw [if_neg ht] at h
      cases hg : generateArtifacts apiKey net document_id docRec.title nowIso
          docRec.pdf_text with
      | error e => rw [hg] at h; exact absurd h (by simp)
      | ok v =>
        obtain ⟨S, F, Q⟩ := v
        rw [hg] at h
        simp only [Except.ok.injEq, Prod.mk.injEq] at h
        exact ⟨docRec, S, F, Q, rfl, ht, hg, h.1.symm, h.2.symm⟩

/-- `GET /documents/{id}` right after the store was updated with a
processed record returns exactly that record's derived outputs. -/
theorem get_document_after_set (store : Store) (document_id nowIso : String)
    (r : DocRecord) (hp : r.processed = true) :
    get_document (store.set document_id r) nowIso document_id =
      { id := r.id, title := r.title, created_at := r.created_at,
        user_id := r.user_id, file_path := r.file_path, summary := r.summary,
        flashcards := r.flashcards.getD [], quiz := r.quiz } := by
  unfold get_document Store.set
  simp [hp]

/-- A question with a truthy options list and a non-negative in-range
integer index stores the option AT that index as `correct_answer`. -/
theorem transformQuestion_in_range (d now : String) (i : Nat)
    (l : List (String × Json)) (opts : List Json) (k : Int)
    (hop : l.lookup "options" = some (.arr opts))
    (hne : opts ≠ [])
    (hcor : l.lookup "correct_answer" = some (.numI k))
    (hk0 : 0 ≤ k) (hklt : k.toNat < opts.length) :
    transformQuestion d now i (.obj l) = .ok
      { id := "q-" ++ d ++ "-" ++ toString (i + 1)
        quiz_id := "quiz-" ++ d
        question := (l.lookup "question").getD (.str "")
        options := .arr opts
        correct_answer := opts.get ⟨k.toNat, hklt⟩
        created_at := now } := by
  unfold transformQuestion pyGet
  simp only [hop, hcor, Option.getD_some]
  have htr : (Json.arr opts).truthy = true := by
    simp [Json.truthy, hne]
  rw [htr]
  simp [pySubscript, pyAsIndex, pyIndex, hk0, List.getElem?_eq_getElem hklt]

/-- A question with a truthy options list and an integer index outside
`[-len, len)` raises `IndexError`, aborting the whole process request. -/
theorem transformQuestion_oob (d now : String) (i : Nat)
    (l : List (String × Json)) (opts : List Json) (k : Int)
    (hop : l.lookup "options" = some (.arr opts))
    (hne : opts ≠ [])
    (hcor : l.lookup "correct_answer" = some (.numI k))
    (hoob : (opts.length : Int) ≤ k ∨ k + opts.length < 0) :
    transformQuestion d now i (.obj l) =
      .error (.indexError "list index out of range") := by
  unfold transformQuestion pyGet
  simp only [hop, hcor, Option.getD_some]
  have htr : (Json.arr opts).truthy = true := by
    simp [Json.truthy, hne]
  rw [htr]
  have hidx : pyIndex opts k = (none : Option Json) := by
    unfold pyIndex
    rcases hoob with hge | hlt
    · rw [if_pos (by omega)]
      exact List.get?_eq_none.mpr (by omega)
    · rw [if_neg (by omega), if_neg (by omega)]
  simp [pySubscript, pyAsIndex, hidx]

/-- A question with a truthy options list but NO `correct_answer` key
defaults the index to 0 and stores the first option. -/
theorem transformQuestion_default_zero (d now : String) (i : Nat)
    (l : List (String × Json)) (opts : List Json)
    (hop : l.lookup "options" = some (.arr opts))
    (hne : opts ≠ [])
    (hmiss : l.lookup "correct_answer" = none)
    (h0 : 0 < opts.length) :
    transformQuestion d now i (.obj l) = .ok
      { id := "q-" ++ d ++ "-" ++ toString (i + 1)
        quiz_id := "quiz-" ++ d
        question := (l.lookup "question").getD (.str "")
        options := .arr opts
        correct_answer := opts.get ⟨0, h0⟩
        created_at := now } := by
  unfold transformQuestion pyGet
  simp only [hop, hmiss, Option.getD_some, Option.getD_none]
  have htr : (Json.arr opts).truthy = true := by
    simp [Json.truthy, hne]
  rw [htr]
  simp [pySubscript, pyAsIndex, pyIndex, List.getElem?_eq_getElem h0]

/-- A question whose `options` key is absent or the empty list stores the
empty string as `correct_answer` (and the empty list as options). -/
theorem transformQuestion_falsy_options (d now : String) (i : Nat)
    (l : List (String × Json))
    (h : l.lookup "options" = none ∨ l.lookup "options" = some (.arr [])) :
    transformQuestion d now i (.obj l) = .ok
      { id := "q-" ++ d ++ "-" ++ toString (i + 1)
        quiz_id := "quiz-" ++ d
        question := (l.lookup "question").getD (.str "")
        options := .arr []
        correct_answer := .str ""
        created_at := now } := by
  unfold transformQuestion pyGet
  rcases h with h | h <;> simp [h, Json.truthy]

/-- Partial inversion of a successful generation run: the quiz questions
stored are exactly the per-question transforms of the parsed `questions`
list of the quiz response named by the oracle. -/
theorem generateArtifacts_ok_quiz {apiKey : String}
    {net : String → Except HTTPError String}
    {document_id title nowIso pdf_text : String} {S : StoredSummary}
    {F : List StoredFlashcard} {Q : StoredQuiz}
    (hga : generateArtifacts apiKey net document_id title nowIso pdf_text =
      .ok (S, F, Q))
    {qr : String} {qfs : List (String × Json)} {qs : List Json}
    (hq : net (create_quiz_prompt pdf_text) = .ok qr)
    (hp : parse_json_response qr = .ok (.obj qfs))
    (hqs : (qfs.lookup "questions").getD (.arr []) = .arr qs) :
    mapIdxM (transformQuestion document_id nowIso) qs 0 = .ok Q.questions ∧
    Q.id = "quiz-" ++ document_id ∧ Q.document_id = document_id ∧
    Q.title = "Quiz: " ++ title ∧ Q.created_at = nowIso := by
  unfold generateArtifacts at hga
  cases c1 : liftHTTP (call_openrouter_api apiKey net
      (create_summary_prompt pdf_text)) with
  | error e => rw [c1, error_bind] at hga; exact absurd hga (by simp)
  | ok sr =>
  rw [c1, ok_bind] at hga
  cases c2 : liftHTTP (parse_json_response sr) with
  | error e => rw [c2, error_bind] at hga; exact absurd hga (by simp)
  | ok sd =>
  rw [c2, ok_bind] at hga
  cases c3 : call_openrouter_api apiKey net (create_quiz_prompt pdf_text) with
  | error e =>
    rw [show liftHTTP (call_openrouter_api apiKey net
      (create_quiz_prompt pdf_text)) = .error (.http e) by rw [c3]; rfl,
      error_bind] at hga
    exact absurd hga (by simp)
  | ok qr2 =>
  have hqr2 : qr2 = qr := by
    have hn := call_openrouter_api_ok c3
    rw [hq] at hn
    exact (Except.ok.inj hn).symm
  subst hqr2
  rw [show liftHTTP (call_openrouter_api apiKey net
    (create_quiz_prompt pdf_text)) = .ok qr2 by rw [c3]; rfl, ok_bind] at hga
  rw [show liftHTTP (parse_json_response qr2) = .ok (.obj qfs) by
    rw [hp]; rfl, ok_bind] at hga
  cases c5 : liftHTTP (call_openrouter_api apiKey net
      (create_flashcards_prompt pdf_text)) with
  | error e => rw [c5, error_bind] at hga; exact absurd hga (by simp)
  | ok fr =>
  rw [c5, ok_bind] at hga
  cases c6 : liftHTTP (parse_json_response fr) with
  | error e => rw [c6, error_bind] at hga; exact absurd hga (by simp)
  | ok fd =>
  rw [c6, ok_bind] at hga
  cases c7 : buildStoredSummary document_id nowIso sd with
  | error e => rw [c7, error_bind] at hga; exact absurd hga (by simp)
  | ok S2 =>
  rw [c7, ok_bind] at hga
  cases c8 : pyGet fd "flashcards" (.arr []) with
  | error e => rw [c8, error_bind] at hga; exact absurd hga (by simp)
  | ok fcVal =>
  rw [c8, ok_bind] at hga
  cases c9 : pyIterList fcVal with
  | error e => rw [c9, error_bind] at hga; exact absurd hga (by simp)
  | ok fcItems =>
  rw [c9, ok_bind] at hga
  cases c10 : mapIdxM (transformFlashcard document_id nowIso) fcItems 0 with
  | error e => rw [c10, error_bind] at hga; exact absurd hga (by simp)
  | ok F2 =>
  rw [c10, ok_bind] at hga
  rw [show pyGet (Json.obj qfs) "questions" (.arr []) = .ok (.arr qs) by
    simp [pyGet, hqs], ok_bind] at hga
  rw [show pyIterList (Json.arr qs) = .ok qs from rfl, ok_bind] at hga
  cases c11 : mapIdxM (transformQuestion document_id nowIso) qs 0 with
  | error e => rw [c11, error_bind] at hga; exact absurd hga (by simp)
  | ok questions =>
  rw [c11, ok_bind] at hga
  simp only [pure, Except.pure, Except.ok.injEq, Prod.mk.injEq] at hga
  obtain ⟨-, -, hQ⟩ := hga
  rw [← hQ]
  exact ⟨rfl, rfl, rfl, rfl, rfl⟩

/-- If the parsed quiz response contains a question whose transform raises
at every position, the whole generation run raises. -/
theorem generateArtifacts_error_of_bad_question {apiKey : String}
    {net : String → Except HTTPError String}
    {document_id title nowIso pdf_text : String}
    {qr : String} {qfs : List (String × Json)} {qs : List Json} {q : Json}
    (hq : net (create_quiz_prompt pdf_text) = .ok qr)
    (hp : parse_json_response qr = .ok (.obj qfs))
    (hqs : (qfs.lookup "questions").getD (.arr []) = .arr qs)
    (hmem : q ∈ qs)
    (hbad : ∀ i, ∃ e, transformQuestion document_id nowIso i q = .error e) :
    ∃ e, generateArtifacts apiKey net document_id title nowIso pdf_text =
      .error e := by
  unfold generateArtifacts
  apply bind_error_all
  intro sr
  apply bind_error_all
  intro sd
  cases c3 : call_openrouter_api apiKey net (create_quiz_prompt pdf_text) with
  | error e =>
    simp only [liftHTTP, error_bind]
    exact ⟨_, rfl⟩
  | ok qr2 =>
  have hqr2 : qr2 = qr := by
    have hn := call_openrouter_api_ok c3
    rw [hq] at hn
    exact (Except.ok.inj hn).symm
  subst hqr2
  simp only [liftHTTP, ok_bind]
  rw [hp]
  simp only [liftHTTP, ok_bind]
  apply bind_error_all
  intro fr
  apply bind_error_all
  intro fd
  apply bind_error_all
  intro S2
  apply bind_error_all
  intro fcVal
  apply bind_error_all
  intro fcItems
  apply bind_error_all
  intro F2
  rw [show pyGet (Json.obj qfs) "questions" (.arr []) = .ok (.arr qs) by
    simp [pyGet, hqs], ok_bind]
  rw [show pyIterList (Json.arr qs) = .ok qs from rfl, ok_bind]
  obtain ⟨e, he⟩ := mapIdxM_error_of_mem hmem hbad 0
  rw [he, error_bind]
  exact ⟨e, rfl⟩

/-- C6: the response parser decodes the slice between the first opening
brace and the last closing brace whenever that slice is an exact JSON
document; it fails with a 500 parse error — never crashing — when a brace
is missing, and, universally, whenever both braces are found but the slice
between them is not valid JSON (which covers every unbalanced or
mismatched-brace input; three concrete such inputs are included). -/
theorem claim_C6 :
    (∀ (s : String) (i k : Nat) (j : Json),
       pyFind s.data lbrace = some i → pyRFind s.data rbrace = some k →
       Json.loads ⟨pySlice s.data i (k + 1)⟩ = some j →
       parse_json_response s = .ok j) ∧
    (∀ s : String,
       pyFind s.data lbrace = none ∨ pyRFind s.data rbrace = none →
       ∃ d, parse_json_response s = .error ⟨500, d⟩) ∧
    (∀ (s : String) (i k : Nat),
       pyFind s.data lbrace = some i → pyRFind s.data rbrace = some k →
       Json.loads ⟨pySlice s.data i (k + 1)⟩ = none →
       ∃ d, parse_json_response s = .error ⟨500, d⟩) ∧
    (∃ d, parse_json_response "\x7b\x7bx\x7d" = .error ⟨500, d⟩) ∧
    (∃ d, parse_json_response "\x7d\x7b" = .error ⟨500, d⟩) ∧
    (∃ d, parse_json_response "\x7b[\x7d" = .error ⟨500, d⟩) := by
  refine ⟨?_, ?_, ?_, ⟨_, rfl⟩, ⟨_, rfl⟩, ⟨_, rfl⟩⟩
  · intro s i k j h1 h2 h3
    unfold parse_json_response
    simp only [h1, h2, h3]
  · intro s h
    unfold parse_json_response
    rcases h with h | h
    · rw [h]
      cases h2 : pyRFind s.data rbrace <;> exact ⟨_, rfl⟩
    · cases h1 : pyFind s.data lbrace <;> rw [h] <;> exact ⟨_, rfl⟩
  · intro s i k h1 h2 h3
    unfold parse_json_response
    simp only [h1, h2, h3]
    exact ⟨_, rfl⟩

/-- Witness for C6: noise around an exact JSON object decodes, and a
found-braces input whose slice is invalid JSON yields the parse error. -/
theorem claim_C6_witness :
    pyFind ("ab\x7b\"a\": 1\x7d cd" : String).data lbrace = some 2 ∧
    pyRFind ("ab\x7b\"a\": 1\x7d cd" : String).data rbrace = some 9 ∧
    Json.loads ⟨pySlice ("ab\x7b\"a\": 1\x7d cd" : String).data 2 (9 + 1)⟩ =
      some (.obj [("a", .numI 1)]) ∧
    parse_json_response "ab\x7b\"a\": 1\x7d cd" =
      .ok (.obj [("a", .numI 1)]) ∧
    pyFind ("\x7b[\x7d" : String).data lbrace = some 0 ∧
    pyRFind ("\x7b[\x7d" : String).data rbrace = some 2 ∧
    Json.loads ⟨pySlice ("\x7b[\x7d" : String).data 0 (2 + 1)⟩ = none ∧
    (∃ d, parse_json_response "\x7b[\x7d" = .error ⟨500, d⟩) :=
  ⟨rfl, rfl, rfl, claim_C6.1 "ab\x7b\"a\": 1\x7d cd" 2 9 _ rfl rfl rfl,
   rfl, rfl, rfl, claim_C6.2.2.1 "\x7b[\x7d" 0 2 rfl rfl rfl⟩

/-- C5: after a successful `POST /documents/{id}/process`, the store holds
exactly the generated summary, flashcards and quiz (overwriting the four
derived keys of the record), `GET /documents/{id}` returns exactly those
stored outputs, and every stored quiz question whose parsed source had a
non-empty options list and a non-negative in-range integer index carries
the option string AT that index as its `correct_answer`. -/
theorem claim_C5 (apiKey : String) (net : String → Except HTTPError String)
    (nowIso : String) (store : Store) (document_id : String) (store2 : Store)
    (env : ProcessEnvelope)
    (hok : process_document apiKey net nowIso store document_id =
      .ok (store2, env)) :
    ∃ (docRec : DocRecord) (S : StoredSummary) (F : List StoredFlashcard)
      (Q : StoredQuiz),
      store document_id = some docRec ∧
      generateArtifacts apiKey net document_id docRec.title nowIso
        docRec.pdf_text = .ok (S, F, Q) ∧
      store2 document_id = some
        { docRec with
          summary := some S
          flashcards := some F
          quiz := some Q
          processed := true } ∧
      get_document store2 nowIso document_id =
        { id := docRec.id, title := docRec.title,
          created_at := docRec.created_at, user_id := docRec.user_id,
          file_path := docRec.file_path, summary := some S, flashcards := F,
          quiz := some Q } ∧
      (∀ (qr : String) (qfs : List (String × Json)) (qs : List Json),
        net (create_quiz_prompt docRec.pdf_text) = .ok qr →
        parse_json_response qr = .ok (.obj qfs) →
        (qfs.lookup "questions").getD (.arr []) = .arr qs →
        ∀ (i : Nat) (l : List (String × Json)) (opts : List Json) (k : Int),
          qs.get? i = some (.obj l) →
          l.lookup "options" = some (.arr opts) →
          opts ≠ [] →
          l.lookup "correct_answer" = some (.numI k) →
          0 ≤ k →
          ∀ hk : k.toNat < opts.length,
            ∃ sq : StoredQuizQuestion,
              Q.questions.get? i = some sq ∧
              sq.options = .arr opts ∧
              sq.correct_answer = opts.get ⟨k.toNat, hk⟩) := by
  obtain ⟨docRec, S, F, Q, hs, ht, hga, hst, henv⟩ :=
    process_document_ok_inv hok
  refine ⟨docRec, S, F, Q, hs, hga, ?_, ?_, ?_⟩
  · rw [hst]
    simp [Store.set]
  · rw [hst]
    exact get_document_after_set store document_id nowIso _ rfl
  · intro qr qfs qs hq hp hqs i l opts k hqi hop hne hcor hk0 hklt
    obtain ⟨hmap, -, -, -, -⟩ := generateArtifacts_ok_quiz hga hq hp hqs
    obtain ⟨sq, hsq, hfsq⟩ := mapIdxM_get qs 0 Q.questions hmap i _ hqi
    have htq := transformQuestion_in_range document_id nowIso (0 + i) l opts
      k hop hne hcor hk0 hklt
    rw [htq] at hfsq
    have hsqe := Except.ok.inj hfsq
    exact ⟨sq, hsq, by rw [← hsqe], by rw [← hsqe]⟩

/-- Witness for C5: a concrete run whose quiz reply has two options and
index 1; the stored `correct_answer` is the option string "b". -/
theorem claim_C5_witness :
    process_document "k" netQuizAB "now" sampleStore "7" =
      .ok (Store.set sampleStore "7" (recAfterAB "now"), envelope7) ∧
    (∃ (docRec : DocRecord) (S : StoredSummary) (F : List StoredFlashcard)
      (Q : StoredQuiz),
      sampleStore "7" = some docRec ∧
      generateArtifacts "k" netQuizAB "7" docRec.title "now"
        docRec.pdf_text = .ok (S, F, Q) ∧
      Store.set sampleStore "7" (recAfterAB "now") "7" = some
        { docRec with
          summary := some S
          flashcards := some F
          quiz := some Q
          processed := true } ∧
      get_document (Store.set sampleStore "7" (recAfterAB "now")) "now" "7" =
        { id := docRec.id, title := docRec.title,
          created_at := docRec.created_at, user_id := docRec.user_id,
          file_path := docRec.file_path, summary := some S, flashcards := F,
          quiz := some Q } ∧
      (∀ (qr : String) (qfs : List (String × Json)) (qs : List Json),
        netQuizAB (create_quiz_prompt docRec.pdf_text) = .ok qr →
        parse_json_response qr = .ok (.obj qfs) →
        (qfs.lookup "questions").getD (.arr []) = .arr qs →
        ∀ (i : Nat) (l : List (String × Json)) (opts : List Json) (k : Int),
          qs.get? i = some (.obj l) →
          l.lookup "options" = some (.arr opts) →
          opts ≠ [] →
          l.lookup "correct_answer" = some (.numI k) →
          0 ≤ k →
          ∀ hk : k.toNat < opts.length,
            ∃ sq : StoredQuizQuestion,
              Q.questions.get? i = some sq ∧
              sq.options = .arr opts ∧
              sq.correct_answer = opts.get ⟨k.toNat, hk⟩)) :=
  ⟨rfl,
   claim_C5 "k" netQuizAB "now" sampleStore "7"
     (Store.set sampleStore "7" (recAfterAB "now")) envelope7 rfl⟩

/-- C9: processing the same id twice overwrites: after the second call the
record holds EXACTLY the second run's generated summary, flashcards and
quiz (whatever the first run generated), not an accumulation. -/
theorem claim_C9 (apiKey : String)
    (net1 net2 : String → Except HTTPError String) (now1 now2 : String)
    (store : Store) (document_id : String) (st1 st2 : Store)
    (e1 e2 : ProcessEnvelope)
    (h1 : process_document apiKey net1 now1 store document_id = .ok (st1, e1))
    (h2 : process_document apiKey net2 now2 st1 document_id = .ok (st2, e2)) :
    ∃ (docRec : DocRecord) (S1 : StoredSummary) (F1 : List StoredFlashcard)
      (Q1 : StoredQuiz) (S2 : StoredSummary) (F2 : List StoredFlashcard)
      (Q2 : StoredQuiz),
      store document_id = some docRec ∧
      generateArtifacts apiKey net1 document_id docRec.title now1
        docRec.pdf_text = .ok (S1, F1, Q1) ∧
      st1 document_id = some
        { docRec with
          summary := some S1
          flashcards := some F1
          quiz := some Q1
          processed := true } ∧
      generateArtifacts apiKey net2 document_id docRec.title now2
        docRec.pdf_text = .ok (S2, F2, Q2) ∧
      st2 document_id = some
        { docRec with
          summary := some S2
          flashcards := some F2
          quiz := some Q2
          processed := true } := by
  obtain ⟨r0, S1, F1, Q1, hs0, ht0, hga1, hst1, -⟩ :=
    process_document_ok_inv h1
  have hr1 : st1 document_id = some
      { r0 with
        summary := some S1
        flashcards := some F1
        quiz := some Q1
        processed := true } := by
    rw [hst1]
    simp [Store.set]
  obtain ⟨r1, S2, F2, Q2, hs1, ht1, hga2, hst2, -⟩ :=
    process_document_ok_inv h2
  have hr1e : r1 =
      { r0 with
        summary := some S1
        flashcards := some F1
        quiz := some Q1
        processed := true } := by
    rw [hs1] at hr1
    exact Option.some.inj hr1
  subst hr1e
  refine ⟨r0, S1, F1, Q1, S2, F2, Q2, hs0, hga1, hr1, hga2, ?_⟩
  rw [hst2]
  simp [Store.set]

/-- Witness for C9: process document "7" with an empty-object reply, then
again with the two-option quiz reply; the final record holds exactly the
second run's outputs. -/
theorem claim_C9_witness :
    process_document "k" netEmptyObj "n1" sampleStore "7" =
      .ok (Store.set sampleStore "7" (recAfterEmpty "n1"), envelope7) ∧
    process_document "k" netQuizAB "n2"
        (Store.set sampleStore "7" (recAfterEmpty "n1")) "7" =
      .ok (Store.set (Store.set sampleStore "7" (recAfterEmpty "n1")) "7"
             (recAfterAB "n2"), envelope7) ∧
    (∃ (docRec : DocRecord) (S1 : StoredSummary) (F1 : List StoredFlashcard)
      (Q1 : StoredQuiz) (S2 : StoredSummary) (F2 : List StoredFlashcard)
      (Q2 : StoredQuiz),
      sampleStore "7" = some docRec ∧
      generateArtifacts "k" netEmptyObj "7" docRec.title "n1"
        docRec.pdf_text = .ok (S1, F1, Q1) ∧
      Store.set sampleStore "7" (recAfterEmpty "n1") "7" = some
        { docRec with
          summary := some S1
          flashcards := some F1
          quiz := some Q1
          processed := true } ∧
      generateArtifacts "k" netQuizAB "7" docRec.title "n2"
        docRec.pdf_text = .ok (S2, F2, Q2) ∧
      Store.set (Store.set sampleStore "7" (recAfterEmpty "n1")) "7"
          (recAfterAB "n2") "7" = some
        { docRec with
          summary := some S2
          flashcards := some F2
          quiz := some Q2
          processed := true }) :=
  ⟨rfl, rfl,
   claim_C9 "k" netEmptyObj netQuizAB "n1" "n2" sampleStore "7"
     (Store.set sampleStore "7" (recAfterEmpty "n1"))
     (Store.set (Store.set sampleStore "7" (recAfterEmpty "n1")) "7"
       (recAfterAB "n2")) envelope7 envelope7 rfl rfl⟩

/-- C10 fails on the code as stated: Python list indexing accepts NEGATIVE
indices down to `-len`, so a `correct_answer` of -1 — outside the bounds
0..len-1 of its non-empty two-option list — does NOT fail the request with
a 500: the request succeeds and the LAST option "b" is stored. -/
theorem claim_C10_counterexample :
    process_document "k" netQuizNeg "now" sampleStore "7" =
      .ok (Store.set sampleStore "7" (recAfterAB "now"), envelope7) ∧
    (recAfterAB "now").quiz = some (quizABStored "now") ∧
    (quizABStored "now").questions.map (fun sq => sq.correct_answer) =
      [.str "b"] :=
  ⟨rfl, rfl, rfl⟩

/-- C10 amended: the process request fails (with a 500 wrapping the
`IndexError`) exactly when the integer index raises in Python, i.e. when
`index ≥ len(options)` or `index < -len(options)`; negative indices within
`[-len, -1]` select from the end instead.  A missing `correct_answer`
defaults to index 0, and falsy (absent or empty) options store the empty
string. -/
theorem claim_C10_amended :
    (∀ (apiKey : String) (net : String → Except HTTPError String)
       (nowIso : String) (store : Store) (document_id : String)
       (docRec : DocRecord) (qr : String) (qfs : List (String × Json))
       (qs : List Json) (l : List (String × Json)) (opts : List Json)
       (k : Int),
       store document_id = some docRec → docRec.pdf_text ≠ "" →
       net (create_quiz_prompt docRec.pdf_text) = .ok qr →
       parse_json_response qr = .ok (.obj qfs) →
       (qfs.lookup "questions").getD (.arr []) = .arr qs →
       Json.obj l ∈ qs →
       l.lookup "options" = some (.arr opts) → opts ≠ [] →
       l.lookup "correct_answer" = some (.numI k) →
       ((opts.length : Int) ≤ k ∨ k + (opts.length : Int) < 0) →
       ∃ d, process_document apiKey net nowIso store document_id =
         .error ⟨500, d⟩) ∧
    (∀ (d now : String) (i : Nat) (l : List (String × Json))
       (opts : List Json),
       l.lookup "options" = some (.arr opts) → opts ≠ [] →
       l.lookup "correct_answer" = none →
       ∀ h0 : 0 < opts.length,
       transformQuestion d now i (.obj l) = .ok
         { id := "q-" ++ d ++ "-" ++ toString (i + 1)
           quiz_id := "quiz-" ++ d
           question := (l.lookup "question").getD (.str "")
           options := .arr opts
           correct_answer := opts.get ⟨0, h0⟩
           created_at := now }) ∧
    (∀ (d now : String) (i : Nat) (l : List (String × Json)),
       (l.lookup "options" = none ∨ l.lookup "options" = some (.arr [])) →
       transformQuestion d now i (.obj l) = .ok
         { id := "q-" ++ d ++ "-" ++ toString (i + 1)
           quiz_id := "quiz-" ++ d
           question := (l.lookup "question").getD (.str "")
           options := .arr []
           correct_answer := .str ""
           created_at := now }) := by
  refine ⟨?_, ?_, ?_⟩
  · intro apiKey net nowIso store document_id docRec qr qfs qs l opts k hs
      ht hq hp hqs hmem hop hne hcor hoob
    simp only [process_document, hs]
    rw [if_neg ht]
    obtain ⟨e, he⟩ := generateArtifacts_error_of_bad_question hq hp hqs hmem
      (fun i => ⟨_, transformQuestion_oob document_id nowIso i l opts k hop
        hne hcor hoob⟩)
    rw [he]
    exact ⟨_, rfl⟩
  · intro d now i l opts hop hne hmiss h0
    exact transformQuestion_default_zero d now i l opts hop hne hmiss h0
  · intro d now i l h
    exact transformQuestion_falsy_options d now i l h

/-- Witness for C10 amended: an index of 5 against two options makes the
whole request fail with a 500; a question without `correct_answer` stores
option 0; a question without options stores the empty string. -/
theorem claim_C10_amended_witness :
    (∃ d, process_document "k" netQuizOOB "now" sampleStore "7" =
      .error ⟨500, d⟩) ∧
    transformQuestion "7" "now" 0 (.obj [("options", .arr [.str "a"])]) =
      .ok ⟨"q-7-1", "quiz-7", .str "", .arr [.str "a"], .str "a", "now"⟩ ∧
    transformQuestion "7" "now" 0 (.obj []) =
      .ok ⟨"q-7-1", "quiz-7", .str "", .arr [], .str "", "now"⟩ :=
  ⟨claim_C10_amended.1 "k" netQuizOOB "now" sampleStore "7" sampleDoc
     "\x7b\"questions\": [\x7b\"options\": [\"a\", \"b\"], \"correct_answer\": 5\x7d]\x7d"
     [("questions",
       Json.arr [Json.obj [("options", Json.arr [Json.str "a", Json.str "b"]),
                   ("correct_answer", Json.numI 5)]])]
     [Json.obj [("options", Json.arr [Json.str "a", Json.str "b"]),
            ("correct_answer", Json.numI 5)]]
     [("options", Json.arr [Json.str "a", Json.str "b"]),
      ("correct_answer", Json.numI 5)]
     [Json.str "a", Json.str "b"] 5 rfl (by decide) rfl rfl rfl
     (List.mem_singleton.mpr rfl) rfl (by simp) rfl (Or.inl (by decide)),
   claim_C10_amended.2.1 "7" "now" 0 [("options", .arr [.str "a"])]
     [.str "a"] rfl (by simp) rfl (by decide),
   claim_C10_amended.2.2 "7" "now" 0 [] (Or.inl rfl)⟩

end AdaptiveEd
